import Mathlib

/-!
Verification development for the RecSuite classification / control-cycle /
synthesis core.  The definitions below are a shallow embedding of
`src/services/IntentAnalyzer.ts`, `src/services/orchestrator.ts`,
`src/mock/mockAgents.ts` and `src/mock/mockDomainData.ts`.

Conventions of the embedding:
* JavaScript strings are Lean `String`; `toLowerCase`/`toUpperCase` act
  per character (all relevant data is ASCII).
* `Math.random()` draws, `Date.now()` timestamps and the `uid()` counter are
  made explicit: every agent takes a record of environment inputs, so an
  agent is a pure function of (text, profile, environment draws).
* JavaScript numbers are rationals (`Rat`); integer-valued data uses `Int`.
* `Record<string, unknown>` payloads are a structure of optional fields,
  one per key the program ever reads or writes; absent key = `none`.
-/

/- == Generic string helpers (JS semantics) ================= -/

/-- Character-wise lowercase, modelling JS `toLowerCase` on ASCII data. -/
def jsToLower (s : String) : String := ⟨s.data.map Char.toLower⟩

/-- Character-wise uppercase, modelling JS `toUpperCase` on ASCII data. -/
def jsToUpper (s : String) : String := ⟨s.data.map Char.toUpper⟩

/-- Substring containment on character lists: JS `text.includes(pat)`. -/
def listContains (text pat : List Char) : Bool :=
  text.tails.any (fun t => pat.isPrefixOf t)

/-- Substring containment, JS `text.includes(pat)`. -/
def strContains (text pat : String) : Bool := listContains text.data pat.data

/-- Fragment of a regular expression: a literal, a required any-character
(`.`), or an optional any-character (`.?`).  This is all the domain-label
patterns of the source use. -/
inductive Rx
  | lit : String → Rx
  | anyOne : Rx
  | anyOpt : Rx

/-- Match a sequence of fragments at the start of the text. -/
def rxMatch : List Rx → List Char → Bool
  | [], _ => true
  | .lit s :: ps, t => s.data.isPrefixOf t && rxMatch ps (t.drop s.data.length)
  | .anyOne :: ps, t =>
      match t with
      | [] => false
      | _ :: t' => rxMatch ps t'
  | .anyOpt :: ps, t =>
      rxMatch ps t ||
        (match t with
         | [] => false
         | _ :: t' => rxMatch ps t')

/-- Unanchored regex search: JS `pattern.test(text)` for one alternative. -/
def rxSearch (p : List Rx) (text : List Char) : Bool :=
  text.tails.any (fun t => rxMatch p t)

/-- Search for an alternation of sequences (`a|b|c`). -/
def altSearch (alts : List (List Rx)) (text : List Char) : Bool :=
  alts.any (fun p => rxSearch p text)

/-- JS word character (`\w`): ASCII alphanumeric or underscore. -/
def isWordChar (c : Char) : Bool := c.isAlphanum || c == '_'

/-- Auxiliary scan for `\bword\b`: tracks the character before the
current position. -/
def wbAux (w : List Char) : Option Char → List Char → Bool
  | _, [] => false
  | prev, c :: rest =>
      ((match prev with
        | none => true
        | some p => !isWordChar p) &&
       w.isPrefixOf (c :: rest) &&
       (match (c :: rest).drop w.length with
        | [] => true
        | d :: _ => !isWordChar d)) ||
      wbAux w (some c) rest

/-- Word-boundary search: JS `/\bw\b/.test(text)` for a word-char word. -/
def wbSearch (w : String) (text : List Char) : Bool :=
  wbAux w.data none text

/-- JS `array.join(sep)`. -/
def joinSep (sep : String) : List String → String
  | [] => ""
  | [x] => x
  | x :: xs => x ++ sep ++ joinSep sep xs

/-- JS `Math.round` (round half toward positive infinity). -/
def jsRound (q : Rat) : Int := (q + 1 / 2).floor

/-- Rendering of a JS number into a string.  The exact decimal formatting of
JS is irrelevant to every property below; any injective-enough concrete
rendering works, so integers print as integers and other rationals print as
`num/den`. -/
def numStr (q : Rat) : String :=
  if q.den = 1 then toString q.num else toString q.num ++ "/" ++ toString q.den

/-- Modelling of `arr[Math.floor(Math.random() * arr.length)]`: the random
draw is an arbitrary natural number index reduced modulo the length. -/
def pickL {α : Type} (l : List α) (d : α) (i : Nat) : α :=
  l.getD (i % l.length) d

/- == Core domain types (src/types) ========================= -/

/-- Execution states for an agent or tool call. -/
inductive ExecutionStatus
  | pending | running | success | error
deriving DecidableEq, Repr

/-- Report finding status. -/
inductive FindingStatus
  | ok | warn | error | info
deriving DecidableEq, Repr

/-- Intent categories of the classifier (general plus domain-specific). -/
inductive IntentType
  | anomaly_detection | root_cause_trace | compliance_check
  | performance_analysis | incident_response | full_analysis
  | server_diagnosis | high_mtp_query | delayed_recon_query
deriving DecidableEq, Repr

/-- String form of an intent type, as the TS union of string literals. -/
def intentTypeStr : IntentType → String
  | .anomaly_detection => "anomaly_detection"
  | .root_cause_trace => "root_cause_trace"
  | .compliance_check => "compliance_check"
  | .performance_analysis => "performance_analysis"
  | .incident_response => "incident_response"
  | .full_analysis => "full_analysis"
  | .server_diagnosis => "server_diagnosis"
  | .high_mtp_query => "high_mtp_query"
  | .delayed_recon_query => "delayed_recon_query"

/-- Severity levels. -/
inductive SeverityLevel
  | low | medium | high | critical
deriving DecidableEq, Repr

/-- String form of a severity level. -/
def severityStr : SeverityLevel → String
  | .low => "low"
  | .medium => "medium"
  | .high => "high"
  | .critical => "critical"

/-- Domain-specific use cases carried in the extracted context. -/
inductive UseCase
  | server_diagnosis | high_mtp | delayed_recon
deriving DecidableEq, Repr

/-- Structured context attached to domain-specific intents. -/
structure ExtractedContext where
  useCase : UseCase
  serverId : Option String := none
  instanceId : Option String := none
deriving DecidableEq, Repr

/-- Profile produced by the classifier. -/
structure IntentProfile where
  type : IntentType
  severity : SeverityLevel
  agentsToInvoke : List String
  primaryKeywords : List String
  domain : String
  extractedContext : Option ExtractedContext := none
deriving DecidableEq, Repr

/-- An account with its MTP value (src/mock/mockDomainData.ts). -/
structure MTPAccount where
  name : String
  mtp : Int
deriving DecidableEq, Repr

/- == Mock reconciliation domain dataset ==================== -/
/-  src/mock/mockDomainData.ts                                 -/

/-- Server statistics record. -/
structure ServerStats where
  id : String
  label : String
  cpu : Rat
  memory : Rat
  activeJobs : Int
  connectionPool : Rat
  instanceRef : String
deriving DecidableEq, Repr

/-- Reconciliation instance record. -/
structure ReconInstance where
  id : String
  name : String
  delayedRecons : List String
  highMTPAccounts : List MTPAccount
  serverRef : String
deriving DecidableEq, Repr

/-- Keys of the INSTANCES record in insertion order. -/
def INSTANCE_KEYS : List String := ["INV", "SNPB", "FX", "ICG"]

/-- The INSTANCES record, as a key lookup. -/
def getInstance (key : String) : Option ReconInstance :=
  if key = "INV" then
    some { id := "INV", name := "Investment Recon",
           delayedRecons := ["goa.cash", "nyk.cash", "cen.cash"],
           highMTPAccounts := [{ name := "inv.equity.blotter", mtp := 143 },
                               { name := "inv.fx.hedge", mtp := 117 }],
           serverRef := "INVRECON3P" }
  else if key = "SNPB" then
    some { id := "SNPB", name := "S&P Bond Recon",
           delayedRecons := ["snpb.bond.us", "snpb.repo.overnight"],
           highMTPAccounts := [{ name := "snpb.fx.settlement", mtp := 184 },
                               { name := "snpb.liquidity", mtp := 162 },
                               { name := "snpb.derivatives", mtp := 201 }],
           serverRef := "SNPBRECON2P" }
  else if key = "FX" then
    some { id := "FX", name := "FX Operations",
           delayedRecons := ["fx.usd.eur", "fx.gbp.jpy", "fx.usd.chf", "fx.aud.nzd"],
           highMTPAccounts := [{ name := "fx.spot.desk", mtp := 155 },
                               { name := "fx.ndf.latam", mtp := 178 }],
           serverRef := "FXRECON4P" }
  else if key = "ICG" then
    some { id := "ICG", name := "Institutional Client Group",
           delayedRecons := ["icg.prime.us", "icg.custody.eu"],
           highMTPAccounts := [{ name := "icg.clearing.global", mtp := 199 },
                               { name := "icg.custody.us", mtp := 138 },
                               { name := "icg.prime.apac", mtp := 171 }],
           serverRef := "ICGRECON6P" }
  else none

/-- Keys of the SERVERS record in insertion order. -/
def SERVER_KEYS : List String := ["ICGRECON6P", "INVRECON3P", "SNPBRECON2P", "FXRECON4P"]

/-- The SERVERS record, as a key lookup. -/
def getServer (key : String) : Option ServerStats :=
  if key = "ICGRECON6P" then
    some { id := "ICGRECON6P", label := "ICGRECON6P", cpu := 78, memory := 83,
           activeJobs := 412, connectionPool := 91, instanceRef := "ICG" }
  else if key = "INVRECON3P" then
    some { id := "INVRECON3P", label := "INVRECON3P", cpu := 45, memory := 61,
           activeJobs := 188, connectionPool := 54, instanceRef := "INV" }
  else if key = "SNPBRECON2P" then
    some { id := "SNPBRECON2P", label := "SNPBRECON2P", cpu := 62, memory := 70,
           activeJobs := 247, connectionPool := 68, instanceRef := "SNPB" }
  else if key = "FXRECON4P" then
    some { id := "FXRECON4P", label := "FXRECON4P", cpu := 55, memory := 58,
           activeJobs := 312, connectionPool := 72, instanceRef := "FX" }
  else none

/-- Upstream job dependency table (JOB_DEPENDENCIES). -/
def jobDeps (r : String) : List String :=
  if r = "goa.cash" then ["eod.batch.goa", "position.feed.goa", "fx.rate.snapshot"]
  else if r = "nyk.cash" then ["eod.batch.nyk", "settlement.feed.nyk"]
  else if r = "cen.cash" then ["eod.batch.cen", "clearing.confirm.cen"]
  else if r = "snpb.bond.us" then ["bond.price.feed", "cusip.resolver", "settlement.stp"]
  else if r = "snpb.repo.overnight" then ["repo.rate.feed", "haircut.calculator", "collateral.mgr"]
  else if r = "snpb.fx.settlement" then ["fx.rate.snapshot", "settlement.stp", "netting.calc"]
  else if r = "fx.usd.eur" then ["fx.rate.snapshot", "ecb.rate.feed", "trade.blotter.fx"]
  else if r = "fx.gbp.jpy" then ["fx.rate.snapshot", "boe.rate.feed", "trade.blotter.fx"]
  else if r = "fx.usd.chf" then ["fx.rate.snapshot", "snb.rate.feed"]
  else if r = "fx.aud.nzd" then ["fx.rate.snapshot", "rba.rate.feed"]
  else if r = "icg.prime.us" then ["prime.broker.feed", "margin.calc.us", "collateral.mgr"]
  else if r = "icg.custody.eu" then ["custody.feed.eu", "asset.servicer.eu", "csd.confirm"]
  else []

/-- Resolve instance from free-text input (case-insensitive key match). -/
def resolveInstance (text : String) : Option ReconInstance :=
  let upper := jsToUpper text
  match INSTANCE_KEYS.find? (fun key => strContains upper key) with
  | some key => getInstance key
  | none => none

/-- Resolve server from free-text input (case-insensitive id match, falling
back to the mentioned instance's server). -/
def resolveServer (text : String) : Option ServerStats :=
  let upper := jsToUpper text
  match SERVER_KEYS.find? (fun key => strContains upper key) with
  | some key => getServer key
  | none =>
      match resolveInstance text with
      | some inst => getServer inst.serverRef
      | none => none

/-- Get upstream job dependencies for a list of recon names (JS Set keeps
insertion order, so this deduplicates keeping first occurrences). -/
def getDependencies (recons : List String) : List String :=
  recons.foldl
    (fun acc r =>
      (jobDeps r).foldl (fun acc d => if d ∈ acc then acc else acc ++ [d]) acc)
    []

/- == IntentAnalyzer (src/services/IntentAnalyzer.ts) ======= -/

/-- Entry of the domain-specific rule table. -/
structure DomainIntentRule where
  type : IntentType
  agents : List String
  useCase : UseCase
  keywords : List String
deriving DecidableEq, Repr

/-- Entry of the general rule table. -/
structure IntentRule where
  type : IntentType
  agents : List String
  keywords : List String
deriving DecidableEq, Repr

/-- Domain-specific rule table (checked first, highest priority). -/
def DOMAIN_INTENT_RULES : List DomainIntentRule :=
  [{ type := .server_diagnosis,
     agents := ["recServerAgent", "recTraceAgent"],
     useCase := .server_diagnosis,
     keywords := ["diagnosis", "server diagnosis", "diagnose",
                  "server stats", "server health", "server status",
                  "run diagnosis", "check server"] },
   { type := .high_mtp_query,
     agents := ["recSignalAgent", "recCheckAgent"],
     useCase := .high_mtp,
     keywords := ["high mtp", "mtp accounts", "mtp threshold", "mtp issues",
                  "mtp breach", "accounts mtp", "mtp in", "mtp for"] },
   { type := .delayed_recon_query,
     agents := ["recSignalAgent"],
     useCase := .delayed_recon,
     keywords := ["delayed recon", "delayed reconciliation", "recon delayed",
                  "delayed jobs", "slow recon", "recon backlog",
                  "what are delayed", "list delayed", "show delayed"] }]

/-- General intent rule table (priority order). -/
def INTENT_RULES : List IntentRule :=
  [{ type := .incident_response,
     agents := ["recSignalAgent", "recTraceAgent", "recCheckAgent"],
     keywords := ["incident", "outage", "down", "offline", "p0", "p1", "sev1", "sev2",
                  "production down", "service down", "system down"] },
   { type := .anomaly_detection,
     agents := ["recSignalAgent", "recCheckAgent"],
     keywords := ["anomal", "spike", "surge", "drift", "signal", "alert",
                  "threshold exceeded", "unusual", "deviation"] },
   { type := .root_cause_trace,
     agents := ["recTraceAgent", "recCheckAgent"],
     keywords := ["trace", "root cause", "why did", "why is", "chain", "dependency",
                  "span", "upstream", "downstream", "propagat", "lineage"] },
   { type := .compliance_check,
     agents := ["recCheckAgent"],
     keywords := ["compliance", "policy", "governance", "audit", "regulation",
                  "sox", "gdpr", "mifid", "approved", "violation"] },
   { type := .performance_analysis,
     agents := ["recSignalAgent", "recTraceAgent"],
     keywords := ["performance", "latency", "throughput", "slow", "timeout",
                  "capacity", "bottleneck", "degraded", "lag"] }]

/-- Severity keyword tables. -/
def SEVERITY_CRITICAL : List String :=
  ["critical", "p0", "sev1", "production down", "total failure", "outage", "down"]

/-- Keywords mapping to high severity. -/
def SEVERITY_HIGH : List String :=
  ["p1", "sev2", "production", "fail", "failed", "failing", "incident", "broken", "offline"]

/-- Keywords mapping to low severity. -/
def SEVERITY_LOW : List String :=
  ["check", "review", "audit", "yesterday", "historical", "last week", "scheduled"]

/-- Filter the candidate keywords contained in the (lowercased) text. -/
def extractKeywords (lower : String) (candidates : List String) : List String :=
  candidates.filter (fun kw => strContains lower kw)

/-- Severity scoring: first non-empty keyword table wins, default medium. -/
def detectSeverity (lower : String) : SeverityLevel :=
  if (extractKeywords lower SEVERITY_CRITICAL).length > 0 then .critical
  else if (extractKeywords lower SEVERITY_HIGH).length > 0 then .high
  else if (extractKeywords lower SEVERITY_LOW).length > 0 then .low
  else .medium

/-- Business-domain labeling (DOMAIN_RULES): first matching pattern wins,
generic fallback label otherwise.  Every source pattern carries the `i`
flag, so matching runs on the lowercased text. -/
def detectDomain (input : String) : String :=
  let t := (jsToLower input).data
  if altSearch [[.lit "fx"], [.lit "foreign", .anyOpt, .lit "exchange"], [.lit "forex"]] t then
    "FX Operations"
  else if altSearch [[.lit "recon"], [.lit "reconcil"]] t then
    "Reconciliation"
  else if altSearch [[.lit "payment"], [.lit "settle"], [.lit "clearing"]] t then
    "Payment & Settlement"
  else if altSearch [[.lit "equity"], [.lit "blotter"], [.lit "trade execution"]] t then
    "Equity Operations"
  else if altSearch [[.lit "position"], [.lit "portfolio"], [.lit "pnl"]] t then
    "Portfolio Management"
  else if altSearch [[.lit "batch"], [.lit "overnight"], [.lit "scheduled"],
                     [.lit "end", .anyOne, .lit "of", .anyOne, .lit "day"]] t then
    "Batch Processing"
  else if altSearch [[.lit "deploy"], [.lit "release"], [.lit "version"],
                     [.lit "pipeline"], [.lit "build"]] t then
    "Release Engineering"
  else if altSearch [[.lit "order"], [.lit "routing"], [.lit "matching"], [.lit "exchange"]] t then
    "Order Management"
  else if altSearch [[.lit "report"], [.lit "feed"], [.lit "data"],
                     [.lit "market", .anyOne, .lit "data"]] t then
    "Data Services"
  else if wbSearch "inv" t || wbSearch "snpb" t || wbSearch "icg" t then
    "Reconciliation"
  else
    "Operations"

/-- Analyse a user prompt and return a structured IntentProfile.  The
source iterates the domain rule table returning on the first rule with at
least one keyword hit; this is the same first-hit search via `find?`. -/
def analyzeIntent (userInput : String) : IntentProfile :=
  let lower := jsToLower userInput
  match DOMAIN_INTENT_RULES.find? (fun rule => !(extractKeywords lower rule.keywords).isEmpty) with
  | some rule =>
      let hits := extractKeywords lower rule.keywords
      let extractedContext : ExtractedContext :=
        if rule.useCase = .server_diagnosis then
          match resolveServer userInput with
          | some server =>
              { useCase := rule.useCase, serverId := some server.id,
                instanceId := some server.instanceRef }
          | none => { useCase := rule.useCase }
        else
          match resolveInstance userInput with
          | some inst =>
              { useCase := rule.useCase, instanceId := some inst.id,
                serverId := some inst.serverRef }
          | none => { useCase := rule.useCase }
      { type := rule.type,
        severity := detectSeverity lower,
        agentsToInvoke := rule.agents,
        primaryKeywords := hits,
        domain := detectDomain userInput,
        extractedContext := some extractedContext }
  | none =>
      let matched :=
        match INTENT_RULES.find? (fun rule => !(extractKeywords lower rule.keywords).isEmpty) with
        | some rule => (rule.type, rule.agents, extractKeywords lower rule.keywords)
        | none =>
            (IntentType.full_analysis,
             ["recSignalAgent", "recTraceAgent", "recCheckAgent"],
             ([] : List String))
      let matchedType := matched.1
      let matchedKeywords := matched.2.2
      let severity := detectSeverity lower
      let matchedAgents :=
        if severity = .critical ∧ matchedType ≠ .full_analysis then
          ["recSignalAgent", "recTraceAgent", "recCheckAgent"]
        else matched.2.1
      let matchedAgents :=
        if "recCheckAgent" ∈ matchedAgents ∧ matchedAgents.length > 1 then
          (matchedAgents.erase "recCheckAgent") ++ ["recCheckAgent"]
        else matchedAgents
      { type := matchedType,
        severity,
        agentsToInvoke := matchedAgents,
        primaryKeywords := matchedKeywords,
        domain := detectDomain userInput }

/- == Payload and tool-call values ========================== -/

/-- Values stored in the `Record<string, unknown>` inputs/outputs of tool
calls: strings, numbers, booleans, string arrays and account arrays are the
only shapes the source ever stores there. -/
inductive Jx
  | s : String → Jx
  | q : Rat → Jx
  | i : Int → Jx
  | b : Bool → Jx
  | sl : List String → Jx
  | accts : List MTPAccount → Jx
deriving DecidableEq, Repr

/-- Agent payload (`payload: Record<string, unknown>`): one optional field
per key any agent writes or the orchestrator reads; a missing key is
`none`, matching JS `undefined`. -/
structure Payload where
  error : Option Bool := none
  reason : Option String := none
  domain : Option String := none
  instanceId : Option String := none
  instanceName : Option String := none
  delayedRecons : Option (List String) := none
  count : Option Nat := none
  accounts : Option (List MTPAccount) := none
  threshold : Option Rat := none
  anomalyScore : Option Rat := none
  anomalyDetected : Option Bool := none
  primarySignal : Option String := none
  features : Option (List String) := none
  recommendation : Option String := none
  rootCause : Option String := none
  confidence : Option Rat := none
  affectedService : Option String := none
  traceIds : Option (List String) := none
  dependencies : Option (List String) := none
  reconJobs : Option (List String) := none
  approved : Option Bool := none
  violations : Option Nat := none
  policies : Option (List String) := none
  violatingPolicies : Option (List String) := none
  serverId : Option String := none
  cpu : Option Rat := none
  memory : Option Rat := none
  activeJobs : Option Int := none
  connectionPool : Option Rat := none
  warnings : Option (List String) := none
deriving DecidableEq, Repr

/-- A single tool invocation performed by an agent. -/
structure ToolCall where
  id : String
  agentId : String
  agentDisplayName : String
  toolId : String
  operationLabel : String
  input : List (String × Jx)
  output : Option (List (String × Jx))
  status : ExecutionStatus
  startedAt : Int
  durationMs : Option Int
deriving DecidableEq, Repr

/-- Structured response returned by every mock agent. -/
structure AgentResponse where
  agentId : String
  displayName : String
  status : ExecutionStatus
  toolCalls : List ToolCall
  summary : String
  payload : Payload
deriving DecidableEq, Repr

/-- Report finding. -/
structure ReportFinding where
  label : String
  value : String
  status : FindingStatus
deriving DecidableEq, Repr

/-- Structured domain panel data: tagged union of the three use cases. -/
inductive DomainSection
  | delayed_recon (instanceId instanceName : String) (recons : List String)
  | high_mtp (instanceId instanceName : String) (accounts : List MTPAccount)
      (threshold : Rat)
  | server_diagnosis (serverId : String) (cpu memory : Rat) (activeJobs : Int)
      (connectionPool : Rat) (dependencies : List String)
deriving DecidableEq, Repr

/-- Report data handed to the caller; `executedAt` is the `Date.now()`
timestamp made an explicit argument. -/
structure ReportData where
  title : String
  executedAt : Int
  intentType : IntentType
  severity : SeverityLevel
  domain : String
  summary : String
  keyFindings : List ReportFinding
  impactScope : List String
  recommendedActions : List String
  domainSection : Option DomainSection := none
deriving DecidableEq, Repr

/-- Node in the agent task graph. -/
structure AgentNode where
  id : String
  label : String
  status : ExecutionStatus
  order : Nat
deriving DecidableEq, Repr

/-- Combined orchestration result. -/
structure OrchestrationResult where
  intent : IntentType
  agents : List AgentResponse
  nodes : List AgentNode
  finalSummary : String
  reportData : ReportData
deriving DecidableEq, Repr

/- == Mock agents (src/mock/mockAgents.ts) ================== -/

/-- Environment data of one `buildTC` call: the `uid()` identifier and the
`Date.now()` start timestamp. -/
structure TCMeta where
  id : String := ""
  startedAt : Int := 0
deriving DecidableEq, Repr

/-- Model of `buildTC`: identifier and timestamp come from the explicit
environment record. -/
def buildTC (agentId agentDisplayName toolId operationLabel : String)
    (input output : List (String × Jx)) (durationMs : Int) (meta : TCMeta)
    (status : ExecutionStatus := .success) : ToolCall :=
  { id := meta.id, agentId, agentDisplayName, toolId, operationLabel,
    input, output := some output, status, startedAt := meta.startedAt,
    durationMs := some durationMs }

/-- Randomisation pools of the mock agents. -/
def SIGNAL_NAMES : List String :=
  ["freq_delta", "vol_spike", "latency_drift", "price_deviation",
   "msg_rate_drop", "checksum_mismatch", "position_break", "feed_timeout",
   "sequence_gap", "book_imbalance"]

/-- Feature pools (one is picked at random). -/
def FEATURE_POOLS : List (List String) :=
  [["freq_delta", "vol_spike", "latency_drift"],
   ["price_deviation", "msg_rate_drop", "book_imbalance"],
   ["checksum_mismatch", "position_break", "feed_timeout"],
   ["sequence_gap", "latency_drift", "vol_spike"],
   ["freq_delta", "checksum_mismatch", "price_deviation"]]

/-- Candidate anomaly thresholds. -/
def ANOMALY_THRESHOLDS : List Rat :=
  [65/100, 70/100, 72/100, 75/100, 78/100, 80/100]

/-- Candidate root causes. -/
def ROOT_CAUSES : List String :=
  ["db_connection_pool_exhaustion", "cache_invalidation_storm",
   "network_partition_detected", "thread_deadlock_in_worker",
   "memory_leak_in_allocator", "downstream_service_timeout",
   "kafka_consumer_group_lag", "gc_pause_cascade",
   "rate_limit_breach", "stale_reference_data"]

/-- Candidate affected services. -/
def AFFECTED_SERVICES : List String :=
  ["payment-svc", "recon-engine", "fx-gateway", "settlement-svc",
   "position-mgr", "order-router", "matching-engine", "report-svc",
   "market-data-feed", "risk-calculator"]

/-- Trace pool entry: correlated trace ids and span count. -/
structure TracePool where
  ids : List String
  spans : Nat
deriving DecidableEq, Repr

/-- Candidate trace pools. -/
def TRACE_POOLS : List TracePool :=
  [{ ids := ["trc-8a1f", "trc-c203", "trc-e7b4"], spans := 12 },
   { ids := ["trc-4d92", "trc-f015", "trc-a3b8"], spans := 9 },
   { ids := ["trc-bb21", "trc-07c6", "trc-5e33"], spans := 17 },
   { ids := ["trc-2a8f", "trc-d49e"], spans := 5 },
   { ids := ["trc-9c1b", "trc-e7f0", "trc-3d44", "trc-a61c"], spans := 23 }]

/-- Candidate governance policies. -/
def POLICY_POOL : List String :=
  ["data-retention-30d", "pii-mask", "audit-log", "sox-segregation",
   "gdpr-article-30", "mifid-best-execution", "trade-surveillance",
   "risk-limit-check", "counterparty-exposure", "change-freeze-window"]

/-- Environment draws of one `recSignalAgent` invocation.  `isError` is the
`Math.random() < 0.10` outcome; `Rat` fields are raw uniform draws from
`[0,1)`; `Nat` fields are pool indices; metas carry uid/timestamp data. -/
structure SignalRand where
  isError : Bool := false
  errMeta : TCMeta := {}
  drR : Rat := 0
  drMeta : TCMeta := {}
  mtpR : Rat := 0
  mtpMeta : TCMeta := {}
  featIdx : Nat := 0
  sigIdx : Nat := 0
  thrIdx : Nat := 0
  sampIdx : Nat := 0
  scoreR : Rat := 0
  gDur1R : Rat := 0
  gDur2R : Rat := 0
  tc1Meta : TCMeta := {}
  tc2Meta : TCMeta := {}
deriving DecidableEq, Repr

/-- JS `rand(min, max)` of the source: `Math.round((min + r*(max-min))*100)/100`. -/
def jsRand2 (mn mx r : Rat) : Rat := ((jsRound ((mn + r * (mx - mn)) * 100) : Rat)) / 100

/-- Optional extracted context of an optional profile
(`profile?.extractedContext`). -/
def ctxOf (profile : Option IntentProfile) : Option ExtractedContext :=
  profile.bind (fun p => p.extractedContext)

/-- JS `instId ? INSTANCES[instId] : resolveInstance(userInput)` (a string is
falsy exactly when empty). -/
def instFromCtx (ctx : ExtractedContext) (userInput : String) : Option ReconInstance :=
  match ctx.instanceId with
  | some iid => if iid = "" then resolveInstance userInput else getInstance iid
  | none => resolveInstance userInput

/-- Monitoring Agent (`recSignalAgent`). -/
def recSignalAgent (userInput : String) (profile : Option IntentProfile)
    (r : SignalRand) : AgentResponse :=
  let DISPLAY := "Monitoring Agent"
  if r.isError then
    { agentId := "recSignalAgent", displayName := DISPLAY, status := .error,
      toolCalls := [buildTC ("recSignalAgent") DISPLAY ("extractFeatures") ("Feature Extraction")
        [(("text"), .s userInput)]
        [(("error"), .s ("Feature extraction failed -- upstream data feed unresponsive"))]
        810 r.errMeta .error],
      summary := "Monitoring Agent could not retrieve signal data. Feed timeout.",
      payload := { error := some true, reason := some ("feed_timeout") } }
  else
    let ctx? := ctxOf profile
    let drInst : Option ReconInstance :=
      match ctx? with
      | some ctx => if ctx.useCase = .delayed_recon then instFromCtx ctx userInput else none
      | none => none
    match drInst with
    | some inst =>
        let dur := jsRound (220 + r.drR * 180)
        let tc := buildTC ("recSignalAgent") DISPLAY ("queryDelayedRecons") ("Delayed Recon Query")
          [(("instance"), .s inst.id), (("since"), .s ("T-1h"))]
          [(("instance"), .s inst.id), (("delayedRecons"), .sl inst.delayedRecons),
           (("count"), .i inst.delayedRecons.length)]
          dur r.drMeta
        { agentId := "recSignalAgent", displayName := DISPLAY, status := .success,
          toolCalls := [tc],
          summary := toString inst.delayedRecons.length ++ " delayed recon job(s) found in "
            ++ inst.name ++ " instance: " ++ joinSep (", ") inst.delayedRecons ++ ".",
          payload := { domain := some ("delayed_recon"),
                       instanceId := some inst.id, instanceName := some inst.name,
                       delayedRecons := some inst.delayedRecons,
                       count := some inst.delayedRecons.length } }
    | none =>
        let mtpInst : Option ReconInstance :=
          match ctx? with
          | some ctx => if ctx.useCase = .high_mtp then instFromCtx ctx userInput else none
          | none => none
        match mtpInst with
        | some inst =>
            let MTP_THRESHOLD : Int := 150
            let dur := jsRound (180 + r.mtpR * 140)
            let tc := buildTC ("recSignalAgent") DISPLAY ("queryMTPAccounts") ("MTP Account Scan")
              [(("instance"), .s inst.id), (("threshold"), .i MTP_THRESHOLD)]
              [(("instance"), .s inst.id), (("accounts"), .accts inst.highMTPAccounts),
               (("threshold"), .i MTP_THRESHOLD)]
              dur r.mtpMeta
            let breachCount := (inst.highMTPAccounts.filter (fun a => a.mtp > MTP_THRESHOLD)).length
            { agentId := "recSignalAgent", displayName := DISPLAY, status := .success,
              toolCalls := [tc],
              summary := toString inst.highMTPAccounts.length ++ " MTP account(s) found in "
                ++ inst.name ++ "  " ++ toString breachCount ++ " breach threshold of "
                ++ toString MTP_THRESHOLD ++ ".",
              payload := { domain := some ("high_mtp"),
                           instanceId := some inst.id, instanceName := some inst.name,
                           accounts := some inst.highMTPAccounts,
                           threshold := some (MTP_THRESHOLD : Rat) } }
        | none =>
            let features := pickL FEATURE_POOLS [] r.featIdx
            let primarySignal := pickL SIGNAL_NAMES ("") r.sigIdx
            let anomalyScore := jsRand2 (52/100) (97/100) r.scoreR
            let threshold := pickL ANOMALY_THRESHOLDS 0 r.thrIdx
            let detected := decide (threshold < anomalyScore)
            let tc1 := buildTC ("recSignalAgent") DISPLAY ("extractFeatures") ("Feature Extraction")
              [(("text"), .s userInput)]
              [(("features"), .sl features), (("count"), .i features.length),
               (("samplingWindowMs"), .i (pickL [500, 1000, 2000] 0 r.sampIdx))]
              (jsRound (180 + r.gDur1R * 120)) r.tc1Meta
            let tc2 := buildTC ("recSignalAgent") DISPLAY ("scoreAnomaly") ("Anomaly Analysis")
              [(("features"), .sl features)]
              [(("anomalyScore"), .q anomalyScore), (("threshold"), .q threshold),
               (("anomalyDetected"), .b detected)]
              (jsRound (100 + r.gDur2R * 100)) r.tc2Meta
            { agentId := "recSignalAgent", displayName := DISPLAY, status := .success,
              toolCalls := [tc1, tc2],
              summary :=
                if detected then
                  "Anomaly detected -- score " ++ numStr anomalyScore
                    ++ " exceeds threshold (" ++ numStr threshold ++ "). Primary signal: "
                    ++ (primarySignal.replace ("_") (" ")) ++ "."
                else
                  "No anomaly detected -- score " ++ numStr anomalyScore
                    ++ " within threshold (" ++ numStr threshold ++ ").",
              payload := { anomalyScore := some anomalyScore, threshold := some threshold,
                           anomalyDetected := some detected,
                           primarySignal := some primarySignal, features := some features,
                           recommendation := some (if detected then "Escalate for trace analysis"
                             else "Continue monitoring") } }

/-- Environment draws of one `recTraceAgent` invocation. -/
structure TraceRand where
  isError : Bool := false
  errMeta : TCMeta := {}
  srvR : Rat := 0
  srvMeta : TCMeta := {}
  rcIdx : Nat := 0
  svcIdx : Nat := 0
  poolIdx : Nat := 0
  confR : Rat := 0
  d1R : Rat := 0
  d2R : Rat := 0
  tc1Meta : TCMeta := {}
  tc2Meta : TCMeta := {}
deriving DecidableEq, Repr

/-- Dependency Intelligence Agent (`recTraceAgent`). -/
def recTraceAgent (userInput : String) (profile : Option IntentProfile)
    (r : TraceRand) : AgentResponse :=
  let DISPLAY := "Dependency Intelligence Agent"
  if r.isError then
    { agentId := "recTraceAgent", displayName := DISPLAY, status := .error,
      toolCalls := [buildTC ("recTraceAgent") DISPLAY ("correlateSpans") ("Span Correlation")
        [(("query"), .s userInput)]
        [(("error"), .s ("Trace store returned 503 -- distributed tracing unavailable"))]
        1200 r.errMeta .error],
      summary := "Dependency Intelligence could not query trace store. Service degraded.",
      payload := { error := some true, reason := some ("trace_store_unavailable") } }
  else
    let srvCtx : Option ExtractedContext :=
      match ctxOf profile with
      | some ctx => if ctx.useCase = .server_diagnosis then some ctx else none
      | none => none
    match srvCtx with
    | some ctx =>
        let inst : Option ReconInstance :=
          match ctx.instanceId with
          | some iid => if iid = "" then none else getInstance iid
          | none => none
        let allRecons :=
          match inst with
          | some i => i.delayedRecons
          | none => ["recon.primary", "recon.secondary"]
        let deps := getDependencies allRecons
        let dur := jsRound (280 + r.srvR * 200)
        let tc := buildTC ("recTraceAgent") DISPLAY ("mapJobDependencies") ("Job Dependency Mapping")
          [(("server"), .s (ctx.serverId.getD ("unknown"))), (("recons"), .sl allRecons)]
          [(("upstreamDependencies"), .sl deps), (("reconJobs"), .sl allRecons),
           (("correlatedSpans"), .i deps.length)]
          dur r.srvMeta
        { agentId := "recTraceAgent", displayName := DISPLAY, status := .success,
          toolCalls := [tc],
          summary := "Dependency map complete  " ++ toString deps.length
            ++ " upstream jobs identified across " ++ toString allRecons.length
            ++ " recon processes.",
          payload := { domain := some ("server_diagnosis"), dependencies := some deps,
                       reconJobs := some allRecons } }
    | none =>
        let rootCause := pickL ROOT_CAUSES ("") r.rcIdx
        let affectedService := pickL AFFECTED_SERVICES ("") r.svcIdx
        let confidence := jsRand2 (67/100) (97/100) r.confR
        let tracePool := pickL TRACE_POOLS { ids := [], spans := 0 } r.poolIdx
        let tc1 := buildTC ("recTraceAgent") DISPLAY ("correlateSpans") ("Span Correlation")
          [(("query"), .s userInput)]
          [(("traceIds"), .sl tracePool.ids), (("correlatedSpans"), .i tracePool.spans)]
          (jsRound (260 + r.d1R * 200)) r.tc1Meta
        let tc2 := buildTC ("recTraceAgent") DISPLAY ("identifyRoot") ("Root Cause Identification")
          [(("traceIds"), .sl tracePool.ids)]
          [(("rootCause"), .s rootCause), (("confidence"), .q confidence),
           (("affectedService"), .s affectedService)]
          (jsRound (130 + r.d2R * 120)) r.tc2Meta
        { agentId := "recTraceAgent", displayName := DISPLAY, status := .success,
          toolCalls := [tc1, tc2],
          summary := "Root cause: " ++ (rootCause.replace ("_") (" ")) ++ " in "
            ++ affectedService ++ " (confidence " ++ toString (jsRound (confidence * 100))
            ++ "%).",
          payload := { rootCause := some rootCause, confidence := some confidence,
                       affectedService := some affectedService,
                       traceIds := some tracePool.ids } }

/-- Environment draws of one `recCheckAgent` invocation.  `shuffled` is the
outcome of the random comparator shuffle of `POLICY_POOL`; `hasViol` is the
`Math.random() < 0.18` outcome and `violR` drives `Math.ceil(Math.random()*2)`. -/
structure CheckRand where
  isError : Bool := false
  errMeta : TCMeta := {}
  shuffled : List String := POLICY_POOL
  polExtra : Nat := 0
  hasViol : Bool := false
  violR : Nat := 0
  d1R : Rat := 0
  d2R : Rat := 0
  tc1Meta : TCMeta := {}
  tc2Meta : TCMeta := {}
deriving DecidableEq, Repr

/-- Release Validation Agent (`recCheckAgent`). -/
def recCheckAgent (userInput : String) (_profile : Option IntentProfile)
    (r : CheckRand) : AgentResponse :=
  let DISPLAY := "Release Validation Agent"
  if r.isError then
    { agentId := "recCheckAgent", displayName := DISPLAY, status := .error,
      toolCalls := [buildTC ("recCheckAgent") DISPLAY ("evaluatePolicy") ("Policy Evaluation")
        [(("action"), .s userInput)]
        [(("error"), .s ("Policy engine returned timeout -- governance check incomplete"))]
        450 r.errMeta .error],
      summary := "Release Validation could not complete -- policy engine unavailable.",
      payload := { error := some true, reason := some ("policy_engine_timeout") } }
  else
    let policies := r.shuffled.take (3 + r.polExtra % 3)
    let violationCount := if r.hasViol then 1 + r.violR % 2 else 0
    let approved := decide (violationCount = 0)
    let violatingPolicies := if violationCount > 0 then policies.take violationCount else []
    let tc1 := buildTC ("recCheckAgent") DISPLAY ("evaluatePolicy") ("Policy Evaluation")
      [(("action"), .s userInput)]
      [(("policies"), .sl policies), (("violations"), .i violationCount),
       (("violatingPolicies"), .sl violatingPolicies)]
      (jsRound (80 + r.d1R * 80)) r.tc1Meta
    let tc2 := buildTC ("recCheckAgent") DISPLAY ("generateApproval") ("Approval Generation")
      [(("violations"), .i violationCount)]
      [(("approved"), .b approved),
       (("notes"), .s (if approved then "All governance checks passed."
         else "Policy violations detected: " ++ joinSep (", ") violatingPolicies
           ++ ". Escalation required."))]
      (jsRound (50 + r.d2R * 60)) r.tc2Meta
    { agentId := "recCheckAgent", displayName := DISPLAY, status := .success,
      toolCalls := [tc1, tc2],
      summary :=
        if approved then
          "Governance checks passed -- " ++ toString policies.length
            ++ " policies evaluated, 0 violations."
        else
          "Governance check failed -- " ++ toString violationCount
            ++ " violation(s) detected. Escalation recommended.",
      payload := { approved := some approved, violations := some violationCount,
                   policies := some policies, violatingPolicies := some violatingPolicies } }

/-- Environment draws of one `recServerAgent` invocation. -/
structure ServerRand where
  isError : Bool := false
  errMeta : TCMeta := {}
  fbCpuR : Rat := 0
  fbMemR : Rat := 0
  fbJobsR : Rat := 0
  fbPoolR : Rat := 0
  fbDurR : Rat := 0
  fbMeta : TCMeta := {}
  cpuR : Rat := 0
  memR : Rat := 0
  jobsR : Rat := 0
  poolR : Rat := 0
  durR : Rat := 0
  kMeta : TCMeta := {}
deriving DecidableEq, Repr

/-- The telemetry jitter of the known-server branch:
`Math.min(100, Math.round(base + (Math.random() - 0.5) * spread))`. -/
def jitter (base spread r : Rat) : Int := min 100 (jsRound (base + (r - 1/2) * spread))

/-- Server Health Agent (`recServerAgent`). -/
def recServerAgent (userInput : String) (profile : Option IntentProfile)
    (r : ServerRand) : AgentResponse :=
  let DISPLAY := "Server Health Agent"
  if r.isError then
    { agentId := "recServerAgent", displayName := DISPLAY, status := .error,
      toolCalls := [buildTC ("recServerAgent") DISPLAY ("collectServerStats") ("Server Stats Collection")
        [(("query"), .s userInput)]
        [(("error"), .s ("Telemetry endpoint unreachable -- metrics unavailable"))]
        320 r.errMeta .error],
      summary := "Server Health Agent could not collect metrics. Telemetry endpoint down.",
      payload := { error := some true, reason := some ("telemetry_unavailable") } }
  else
    let serverId? := (ctxOf profile).bind (fun ctx => ctx.serverId)
    let server : Option ServerStats :=
      match serverId? with
      | some sid => if sid = "" then resolveServer userInput else getServer sid
      | none => resolveServer userInput
    match server with
    | none =>
        let cpu := jsRound (30 + r.fbCpuR * 55)
        let mem := jsRound (40 + r.fbMemR * 45)
        let jobs := jsRound (50 + r.fbJobsR * 200)
        let pool := jsRound (20 + r.fbPoolR * 50)
        let tc := buildTC ("recServerAgent") DISPLAY ("collectServerStats") ("Server Stats Collection")
          [(("query"), .s userInput)]
          [(("cpu"), .i cpu), (("memory"), .i mem), (("activeJobs"), .i jobs),
           (("connectionPool"), .i pool)]
          (jsRound (180 + r.fbDurR * 120)) r.fbMeta
        { agentId := "recServerAgent", displayName := DISPLAY, status := .success,
          toolCalls := [tc],
          summary := "Server diagnostics collected  CPU " ++ toString cpu
            ++ "%, Memory " ++ toString mem ++ "%.",
          payload := { domain := some ("server_diagnosis"), cpu := some (cpu : Rat),
                       memory := some (mem : Rat), activeJobs := some jobs,
                       connectionPool := some (pool : Rat) } }
    | some server =>
        let cpu := jitter server.cpu 8 r.cpuR
        let memory := jitter server.memory 6 r.memR
        let activeJobs := jsRound ((server.activeJobs : Rat) + (r.jobsR - 1/2) * 30)
        let connectionPool := jitter server.connectionPool 5 r.poolR
        let tc := buildTC ("recServerAgent") DISPLAY ("collectServerStats") ("Server Stats Collection")
          [(("server"), .s server.id)]
          [(("serverId"), .s server.id), (("cpu"), .i cpu), (("memory"), .i memory),
           (("activeJobs"), .i activeJobs), (("connectionPool"), .i connectionPool)]
          (jsRound (160 + r.durR * 100)) r.kMeta
        let warnings : List String :=
          (if cpu > 75 then ["CPU critical (" ++ toString cpu ++ "%)"] else []) ++
          (if memory > 80 then ["Memory pressure (" ++ toString memory ++ "%)"] else []) ++
          (if connectionPool > 85 then
            ["Connection pool near exhaustion (" ++ toString connectionPool ++ "%)"] else [])
        { agentId := "recServerAgent", displayName := DISPLAY, status := .success,
          toolCalls := [tc],
          summary :=
            if warnings.length > 0 then
              "Server " ++ server.id ++ ": " ++ joinSep ("; ") warnings ++ ". "
                ++ toString activeJobs ++ " active jobs."
            else
              "Server " ++ server.id ++ " operating nominally  CPU " ++ toString cpu
                ++ "%, Memory " ++ toString memory ++ "%, " ++ toString activeJobs
                ++ " active jobs.",
          payload := { domain := some ("server_diagnosis"), serverId := some server.id,
                       cpu := some (cpu : Rat), memory := some (memory : Rat),
                       activeJobs := some activeJobs,
                       connectionPool := some (connectionPool : Rat),
                       warnings := some warnings } }

/-- Agent ids registered in `AGENT_REGISTRY`. -/
def AGENT_IDS : List String :=
  ["recSignalAgent", "recTraceAgent", "recCheckAgent", "recServerAgent"]

/-- Environment draws for one full control cycle (one record per agent, as
every agent is invoked at most once per cycle). -/
structure CycleRand where
  signal : SignalRand := {}
  trace : TraceRand := {}
  check : CheckRand := {}
  server : ServerRand := {}
deriving DecidableEq, Repr

/-- The registry lookup `AGENT_REGISTRY[agentId]` combined with the agent
invocation `fn(userInput, profile)`: `none` models an unknown id. -/
def runAgent (id : String) (userInput : String) (profile : Option IntentProfile)
    (rnd : CycleRand) : Option AgentResponse :=
  if id = "recSignalAgent" then some (recSignalAgent userInput profile rnd.signal)
  else if id = "recTraceAgent" then some (recTraceAgent userInput profile rnd.trace)
  else if id = "recCheckAgent" then some (recCheckAgent userInput profile rnd.check)
  else if id = "recServerAgent" then some (recServerAgent userInput profile rnd.server)
  else none

/- == Orchestrator (src/services/orchestrator.ts) =========== -/

/-- Narrative summary: error lines rendered specially, joined with spaces,
domain tag appended unless the domain label is the literal `general`,
falling back to a fixed sentence when empty. -/
def synthesizeSummary (responses : List AgentResponse) (profile : IntentProfile) : String :=
  let lines := responses.map (fun r =>
    if r.status = .error then
      r.displayName ++ " encountered an error: " ++ r.summary
    else r.summary)
  let base := joinSep (" ") lines
  let domainTag := if profile.domain ≠ "general" then " (" ++ profile.domain ++ ")" else ""
  let joined := (base ++ domainTag).trim
  if joined = "" then "Analysis complete." else joined

/-- Structured domain panel selection (`buildDomainSection`): requires the
use case in the profile context and a successful, matching-tagged agent
response; `as`-casts of absent fields fall back to zero values. -/
def buildDomainSection (responses : List AgentResponse) (profile : IntentProfile) :
    Option DomainSection :=
  let useCase := (profile.extractedContext).map (fun c => c.useCase)
  if useCase = some .delayed_recon then
    match responses.find? (fun x => x.agentId == "recSignalAgent" && x.status == .success) with
    | some r =>
        if r.payload.domain = some ("delayed_recon") then
          some (.delayed_recon (r.payload.instanceId.getD "") (r.payload.instanceName.getD "")
            (r.payload.delayedRecons.getD []))
        else none
    | none => none
  else if useCase = some .high_mtp then
    match responses.find? (fun x => x.agentId == "recSignalAgent" && x.status == .success) with
    | some r =>
        if r.payload.domain = some ("high_mtp") then
          some (.high_mtp (r.payload.instanceId.getD "") (r.payload.instanceName.getD "")
            (r.payload.accounts.getD []) (r.payload.threshold.getD 0))
        else none
    | none => none
  else if useCase = some .server_diagnosis then
    match responses.find? (fun x => x.agentId == "recServerAgent" && x.status == .success) with
    | some srv =>
        if srv.payload.domain = some ("server_diagnosis") then
          let trace := responses.find? (fun x => x.agentId == "recTraceAgent" && x.status == .success)
          let deps :=
            match trace with
            | some t => if t.payload.domain = some ("server_diagnosis")
                then t.payload.dependencies.getD [] else []
            | none => []
          some (.server_diagnosis (srv.payload.serverId.getD "") (srv.payload.cpu.getD 0)
            (srv.payload.memory.getD 0) (srv.payload.activeJobs.getD 0)
            (srv.payload.connectionPool.getD 0) deps)
        else none
    | none => none
  else none

/-- Findings contributed by one agent response in `buildReportData`: an
errored response yields the fixed unavailable finding; a successful one
yields the shape of its agent id (independent `if` statements in the
source, so the translations are appended). -/
def agentFindings (r : AgentResponse) : List ReportFinding :=
  if r.status = .error then
    [{ label := r.displayName, value := "Error — agent unavailable", status := .error }]
  else
    (if r.agentId = "recSignalAgent" then
      let score := r.payload.anomalyScore.getD 0
      let thresh := r.payload.threshold.getD 0
      let det := r.payload.anomalyDetected.getD false
      [{ label := "Anomaly Score",
         value := numStr score ++ " (threshold " ++ numStr thresh ++ ")",
         status := if det then .warn else .ok }]
     else []) ++
    (if r.agentId = "recTraceAgent" then
      let rc := match r.payload.rootCause with
        | some s => s.replace ("_") (" ")
        | none => "—"
      let conf := r.payload.confidence.getD 0
      [{ label := "Root Cause",
         value := rc ++ " — " ++ toString (jsRound (conf * 100)) ++ "% confidence",
         status := if conf ≥ 85/100 then .error else .warn }]
     else []) ++
    (if r.agentId = "recCheckAgent" then
      let approved := r.payload.approved.getD false
      let violations := r.payload.violations.getD 0
      [{ label := "Governance",
         value := if approved then "Passed" else toString violations ++ " violation(s) detected",
         status := if approved then .ok else .error }]
     else []) ++
    (if r.agentId = "recServerAgent" then
      let cpu := r.payload.cpu.getD 0
      let mem := r.payload.memory.getD 0
      let pool := r.payload.connectionPool.getD 0
      [{ label := "Server Health",
         value := "CPU " ++ numStr cpu ++ "% | Mem " ++ numStr mem ++ "% | Pool "
           ++ numStr pool ++ "%",
         status := if cpu > 75 ∨ mem > 80 ∨ pool > 85 then .warn else .ok }]
     else [])

/-- The `id.replace(/rec|Agent/g, '')` munging of the impact-scope fallback. -/
def stripRecAgent (id : String) : String :=
  (id.replace ("rec") ("")).replace ("Agent") ("")

/-- Leading findings of `buildReportData`: intent, severity, and the domain
finding guarded by the literal `general`. -/
def baseFindings (profile : IntentProfile) : List ReportFinding :=
  [{ label := "Intent", value := (intentTypeStr profile.type).replace ("_") (" "),
     status := .info },
   { label := "Severity", value := severityStr profile.severity,
     status := if profile.severity = .critical then .error
       else if profile.severity = .high then .warn else .info }] ++
  (if profile.domain ≠ "general" then
    [{ label := "Domain", value := profile.domain, status := .info }] else [])

/-- Report synthesis (`buildReportData`); `now` is the `Date.now()`
execution timestamp made explicit. -/
def buildReportData (responses : List AgentResponse) (profile : IntentProfile)
    (finalSummary : String) (now : Int) : ReportData :=
  let findings : List ReportFinding :=
    baseFindings profile ++ responses.flatMap agentFindings
  let traceResp := responses.find? (fun r => r.agentId == "recTraceAgent" && r.status == .success)
  let serverResp := responses.find? (fun r => r.agentId == "recServerAgent" && r.status == .success)
  let impactScope : List String :=
    match traceResp with
    | some t =>
        ["Service: " ++ (t.payload.affectedService.getD ("—")),
         "Traces correlated: " ++
           (match t.payload.traceIds with
            | some l => toString l.length
            | none => "—")]
    | none =>
        match serverResp with
        | some s =>
            ["Server: " ++ (s.payload.serverId.getD ("—")),
             "Active jobs: " ++
               (match s.payload.activeJobs with
                | some n => toString n
                | none => "undefined")]
        | none =>
            profile.agentsToInvoke.map (fun id => jsToLower (stripRecAgent id) ++ " pipeline")
  let domainSection := buildDomainSection responses profile
  let hasAnomaly := responses.any (fun r =>
    r.agentId == "recSignalAgent" && r.payload.anomalyDetected.getD false)
  let hasCriticalRootCause := responses.any (fun r =>
    r.agentId == "recTraceAgent" && decide (r.payload.confidence.getD 0 ≥ 85/100))
  let hasViolation := responses.any (fun r =>
    r.agentId == "recCheckAgent" && !(r.payload.approved.getD false))
  let hasError := responses.any (fun r => r.status == .error)
  let signalResp := responses.find? (fun r => r.agentId == "recSignalAgent" && r.status == .success)
  let actions : List String :=
    (if hasError then ["Retry failed agents — upstream service may be recovering."] else []) ++
    (if hasAnomaly then
      ["Investigate anomalous signals — run targeted trace for root cause confirmation."]
     else []) ++
    (if hasCriticalRootCause then
      ["Remediate identified root cause — coordinate with owning service team."] else []) ++
    (if hasViolation then
      ["Resolve governance violations before proceeding — escalate to compliance team."]
     else []) ++
    (match signalResp with
     | some s =>
        (if s.payload.domain = some ("delayed_recon") then
          ["Investigate delayed recon jobs — check upstream job completion and data feed latency."]
         else []) ++
        (if s.payload.domain = some ("high_mtp") then
          let breachedNames := ((s.payload.accounts.getD []).filter (fun a => a.mtp > 180)).map
            (fun a => a.name)
          if breachedNames.length > 0 then
            ["Escalate high-MTP accounts for review: " ++ joinSep (", ") breachedNames ++ "."]
          else []
         else [])
     | none => []) ++
    (match serverResp with
     | some s =>
        if s.payload.domain = some ("server_diagnosis") then
          let warns := s.payload.warnings.getD []
          (if warns.length > 0 then
            ["Server resource alerts require attention: " ++ joinSep ("; ") warns ++ "."]
           else []) ++
          ["Review upstream job dependencies — consider re-scheduling delayed jobs."]
        else []
     | none => [])
  let actions := if actions.length = 0 then
    ["No immediate action required. Continue standard monitoring."] else actions
  { title := (intentTypeStr profile.type).replace ("_") (" ") ++ " — Analysis Report",
    executedAt := now,
    intentType := profile.type,
    severity := profile.severity,
    domain := profile.domain,
    summary := finalSummary,
    keyFindings := findings,
    impactScope := impactScope,
    recommendedActions := actions,
    domainSection := domainSection }

/-- Lifecycle callback invocations of one cycle, recorded as an event
trace in emission order (`onPlanning`, `onAgentStart`, `onAgentComplete`,
`onSynthesis`, `onComplete`). -/
inductive CycleEvent
  | planning (profile : IntentProfile)
  | agentStart (displayName : String) (agentId : String)
  | agentComplete (displayName : String)
  | synthesis (finalMessage : String)
  | complete
deriving DecidableEq, Repr

/-- Stable insertion sort by node order (model of `nodes.sort((a, b) =>
a.order - b.order)`; V8 array sort is stable). -/
def insertNode (n : AgentNode) : List AgentNode → List AgentNode
  | [] => [n]
  | m :: ms => if m.order ≤ n.order then m :: insertNode n ms else n :: m :: ms

/-- Sort nodes by their execution order. -/
def sortNodes : List AgentNode → List AgentNode
  | [] => []
  | n :: ns => insertNode n (sortNodes ns)

/-- Execution loop of the control cycle: walks `agentsToInvoke` keeping the
1-based loop index, skips unknown ids, and records responses, nodes and the
per-agent events. -/
def execLoop (reg : String → Option AgentResponse) :
    List String → Nat → List AgentResponse × List AgentNode × List CycleEvent
  | [], _ => ([], [], [])
  | id :: rest, idx =>
      match reg id with
      | none => execLoop reg rest (idx + 1)
      | some result =>
          let node : AgentNode :=
            { id := result.agentId, label := result.displayName,
              status := result.status, order := idx + 1 }
          let k := execLoop reg rest (idx + 1)
          (result :: k.1, node :: k.2.1,
           .agentStart result.displayName result.agentId ::
             .agentComplete result.displayName :: k.2.2)

/-- One orchestration control cycle over an abstract registry (the
composition of `AGENT_REGISTRY` lookup and agent invocation), returning the
result together with the emitted event trace.  The pacing `delay(...)`
calls suspend without observable effect and are omitted. -/
def runControlCycle (userInput : String) (reg : String → Option AgentResponse)
    (now : Int) : OrchestrationResult × List CycleEvent :=
  let profile := analyzeIntent userInput
  let k := execLoop reg profile.agentsToInvoke 0
  let responses := k.1
  let loopEvents := k.2.2
  let nodes := sortNodes k.2.1
  let finalSummary := synthesizeSummary responses profile
  let reportData := buildReportData responses profile finalSummary now
  ({ intent := profile.type, agents := responses, nodes := nodes,
     finalSummary := finalSummary, reportData := reportData },
   .planning profile :: loopEvents ++ [.synthesis finalSummary, .complete])

/-- The control cycle run against the concrete agent registry, all
environment draws explicit. -/
def runCycleWithAgents (userInput : String) (rnd : CycleRand) (now : Int) :
    OrchestrationResult × List CycleEvent :=
  runControlCycle userInput (fun id => runAgent id userInput (some (analyzeIntent userInput)) rnd)
    now

/- == Helper lemmas ========================================= -/

/-- Reordering step of the classifier: whenever the reordered list is
longer than one and contains the compliance agent, that agent is last. -/
theorem reorder_step_last (A : List String)
    (h1 : 1 < (if "recCheckAgent" ∈ A ∧ A.length > 1 then
      (A.erase "recCheckAgent") ++ ["recCheckAgent"] else A).length)
    (h2 : "recCheckAgent" ∈ (if "recCheckAgent" ∈ A ∧ A.length > 1 then
      (A.erase "recCheckAgent") ++ ["recCheckAgent"] else A)) :
    (if "recCheckAgent" ∈ A ∧ A.length > 1 then
      (A.erase "recCheckAgent") ++ ["recCheckAgent"] else A).getLast? =
      some "recCheckAgent" := by
  by_cases hc : "recCheckAgent" ∈ A ∧ A.length > 1
  · rw [if_pos hc]
    exact List.getLast?_concat _
  · rw [if_neg hc] at h1 h2 ⊢
    exact absurd ⟨h2, h1⟩ hc

/- == Claim theorems ======================================== -/

/-- C2: for every input text, whenever the returned agentsToInvoke has more
than one element and contains the compliance agent `recCheckAgent`, that
agent is the last element; this holds on both the domain-specific path and
the general path of `analyzeIntent`. -/
theorem c2_compliance_agent_last (input : String)
    (h1 : 1 < (analyzeIntent input).agentsToInvoke.length)
    (h2 : "recCheckAgent" ∈ (analyzeIntent input).agentsToInvoke) :
    (analyzeIntent input).agentsToInvoke.getLast? = some "recCheckAgent" := by
  rcases hfind : DOMAIN_INTENT_RULES.find?
      (fun rule => !(extractKeywords (jsToLower input) rule.keywords).isEmpty) with _ | rule
  · simp only [analyzeIntent, hfind] at h1 h2 ⊢
    exact reorder_step_last _ h1 h2
  · have hmem := List.mem_of_find?_eq_some hfind
    simp only [analyzeIntent, hfind] at h1 h2 ⊢
    fin_cases hmem
    · exact absurd h2 (by decide)
    · decide
    · exact absurd h1 (by decide)

/-- C2 witness: the theorem applied at the input "anomaly", whose profile
invokes the monitoring and compliance agents. -/
theorem c2_witness :
    1 < (analyzeIntent "anomaly").agentsToInvoke.length ∧
    "recCheckAgent" ∈ (analyzeIntent "anomaly").agentsToInvoke ∧
    (analyzeIntent "anomaly").agentsToInvoke.getLast? = some "recCheckAgent" :=
  ⟨by decide, by decide, c2_compliance_agent_last _ (by decide) (by decide)⟩

/-- C1 counterexample: on the input "delayed recon down" the detected
severity is critical and the winning intent (delayed_recon_query, from the
domain-specific rule pass) is not the default full-analysis category, yet
agentsToInvoke is the single-agent list of the domain rule, not the full
agent set — the claim fails on the domain-specific path. -/
theorem c1_counterexample :
    (analyzeIntent "delayed recon down").severity = SeverityLevel.critical ∧
    (analyzeIntent "delayed recon down").type ≠ IntentType.full_analysis ∧
    (analyzeIntent "delayed recon down").agentsToInvoke ≠
      ["recSignalAgent", "recTraceAgent", "recCheckAgent"] := by
  decide

/-- C1 amended: the critical-severity override applies only on the general
path.  For every input on which no domain-specific rule matches, if the
detected severity is critical and the winning intent is not full_analysis,
then agentsToInvoke is the full agent set. -/
theorem c1_critical_forces_full_general_path (input : String)
    (hnd : DOMAIN_INTENT_RULES.find?
      (fun rule => !(extractKeywords (jsToLower input) rule.keywords).isEmpty) = none)
    (hc : (analyzeIntent input).severity = SeverityLevel.critical)
    (ht : (analyzeIntent input).type ≠ IntentType.full_analysis) :
    (analyzeIntent input).agentsToInvoke =
      ["recSignalAgent", "recTraceAgent", "recCheckAgent"] := by
  rcases hgen : INTENT_RULES.find?
      (fun rule => !(extractKeywords (jsToLower input) rule.keywords).isEmpty) with _ | rule
  · simp only [analyzeIntent, hnd, hgen] at ht
    exact absurd rfl ht
  · simp only [analyzeIntent, hnd, hgen] at hc ht ⊢
    simp [hc, ht]

/-- C1 witness: on "critical latency" no domain rule matches, severity is
critical, the winning intent is performance_analysis, and the agent list is
forced to the full set. -/
theorem c1_witness :
    DOMAIN_INTENT_RULES.find?
      (fun rule => !(extractKeywords (jsToLower "critical latency") rule.keywords).isEmpty)
        = none ∧
    (analyzeIntent "critical latency").severity = SeverityLevel.critical ∧
    (analyzeIntent "critical latency").type ≠ IntentType.full_analysis ∧
    (analyzeIntent "critical latency").agentsToInvoke =
      ["recSignalAgent", "recTraceAgent", "recCheckAgent"] :=
  ⟨by decide, by decide, by decide,
   c1_critical_forces_full_general_path _ (by decide) (by decide) (by decide)⟩

/-- C3 counterexample: on the exact input of the claim the classifier does
not return the default full-analysis intent with all three general agents:
the keyword "why did" of the root_cause_trace rule matches first. -/
theorem c3_counterexample :
    (analyzeIntent "Why did yesterday\x27s FX reconciliation fail?").type ≠
      IntentType.full_analysis ∧
    (analyzeIntent "Why did yesterday\x27s FX reconciliation fail?").agentsToInvoke ≠
      ["recSignalAgent", "recTraceAgent", "recCheckAgent"] := by
  decide

/-- C3 amended: the input "Why did yesterday's FX reconciliation fail?"
classifies as root_cause_trace (keyword "why did"), invoking the trace and
compliance agents with the compliance agent last; severity is high (keyword
"fail") and the business domain is the FX-labeled one. -/
theorem c3_fx_recon_classification :
    analyzeIntent "Why did yesterday\x27s FX reconciliation fail?" =
      { type := IntentType.root_cause_trace,
        severity := SeverityLevel.high,
        agentsToInvoke := ["recTraceAgent", "recCheckAgent"],
        primaryKeywords := ["why did"],
        domain := "FX Operations",
        extractedContext := none } := by
  decide

/-- C4: evaluation of the divergence.  `detectDomain` returns the generic
fallback label "Operations" when no domain rule matches (shown on the input
"hello"), yet `buildReportData` still emits a Domain finding for that
profile, because its suppression guard compares the domain against the
literal "general", a label the classifier never produces. -/
theorem c4_domain_finding_on_fallback :
    detectDomain "hello" = "Operations" ∧
    (analyzeIntent "hello").domain = "Operations" ∧
    ({ label := "Domain", value := "Operations", status := FindingStatus.info } :
        ReportFinding) ∈
      (buildReportData [] (analyzeIntent "hello") ("") 0).keyFindings := by
  decide

/-- C8: the classifier is deterministic and total — it is a pure total
function of the input text, so identical inputs yield identical profiles
in every field. -/
theorem c8_classifier_deterministic (s t : String) (h : s = t) :
    analyzeIntent s = analyzeIntent t := by
  rw [h]

/-- C8 witness: the theorem applied at a concrete input. -/
theorem c8_witness :
    ("check anomaly drift" : String) = "check anomaly drift" ∧
    analyzeIntent "check anomaly drift" = analyzeIntent "check anomaly drift" :=
  ⟨rfl, c8_classifier_deterministic _ _ rfl⟩

/-- Display names of the four registered agents, in registry order. -/
def DISPLAY_NAMES : List String :=
  ["Monitoring Agent", "Dependency Intelligence Agent",
   "Release Validation Agent", "Server Health Agent"]

/-- Display name associated to a registered agent id. -/
def displayNameOf (id : String) : String :=
  if id = "recSignalAgent" then "Monitoring Agent"
  else if id = "recTraceAgent" then "Dependency Intelligence Agent"
  else if id = "recCheckAgent" then "Release Validation Agent"
  else if id = "recServerAgent" then "Server Health Agent"
  else ""

theorem recSignalAgent_fields (input : String) (p : Option IntentProfile) (r : SignalRand) :
    (recSignalAgent input p r).agentId = "recSignalAgent" ∧
    (recSignalAgent input p r).displayName = "Monitoring Agent" := by
  unfold recSignalAgent
  by_cases he : r.isError = true <;> simp only [he, ite_true, ite_false, Bool.false_eq_true]
  · simp
  · split
    · simp
    · split <;> simp

theorem recTraceAgent_fields (input : String) (p : Option IntentProfile) (r : TraceRand) :
    (recTraceAgent input p r).agentId = "recTraceAgent" ∧
    (recTraceAgent input p r).displayName = "Dependency Intelligence Agent" := by
  unfold recTraceAgent
  by_cases he : r.isError = true <;> simp only [he, ite_true, ite_false, Bool.false_eq_true]
  · simp
  · split <;> simp

theorem recCheckAgent_fields (input : String) (p : Option IntentProfile) (r : CheckRand) :
    (recCheckAgent input p r).agentId = "recCheckAgent" ∧
    (recCheckAgent input p r).displayName = "Release Validation Agent" := by
  unfold recCheckAgent
  by_cases he : r.isError = true <;> simp only [he, ite_true, ite_false, Bool.false_eq_true] <;> simp

theorem recServerAgent_fields (input : String) (p : Option IntentProfile) (r : ServerRand) :
    (recServerAgent input p r).agentId = "recServerAgent" ∧
    (recServerAgent input p r).displayName = "Server Health Agent" := by
  unfold recServerAgent
  by_cases he : r.isError = true <;> simp only [he, ite_true, ite_false, Bool.false_eq_true]
  · simp
  · split <;> simp

theorem recSignalAgent_error_shape (input : String) (p : Option IntentProfile) (r : SignalRand)
    (herr : (recSignalAgent input p r).status = .error) :
    (recSignalAgent input p r).toolCalls.map (fun tc => tc.status) = [.error] := by
  unfold recSignalAgent at herr ⊢
  by_cases he : r.isError = true
  · simp [he, buildTC]
  · exfalso
    simp only [he, if_false, Bool.false_eq_true, ite_false] at herr
    split at herr
    · simp at herr
    · split at herr
      · simp at herr
      · simp at herr

theorem recTraceAgent_error_shape (input : String) (p : Option IntentProfile) (r : TraceRand)
    (herr : (recTraceAgent input p r).status = .error) :
    (recTraceAgent input p r).toolCalls.map (fun tc => tc.status) = [.error] := by
  unfold recTraceAgent at herr ⊢
  by_cases he : r.isError = true
  · simp [he, buildTC]
  · exfalso
    simp only [he, if_false, Bool.false_eq_true, ite_false] at herr
    split at herr
    · simp at herr
    · simp at herr

theorem recCheckAgent_error_shape (input : String) (p : Option IntentProfile) (r : CheckRand)
    (herr : (recCheckAgent input p r).status = .error) :
    (recCheckAgent input p r).toolCalls.map (fun tc => tc.status) = [.error] := by
  unfold recCheckAgent at herr ⊢
  by_cases he : r.isError = true
  · simp [he, buildTC]
  · exfalso
    simp only [he, if_false, Bool.false_eq_true, ite_false] at herr
    simp at herr

theorem recServerAgent_error_shape (input : String) (p : Option IntentProfile) (r : ServerRand)
    (herr : (recServerAgent input p r).status = .error) :
    (recServerAgent input p r).toolCalls.map (fun tc => tc.status) = [.error] := by
  unfold recServerAgent at herr ⊢
  by_cases he : r.isError = true
  · simp [he, buildTC]
  · exfalso
    simp only [he, if_false, Bool.false_eq_true, ite_false] at herr
    split at herr
    · simp at herr
    · simp at herr

/-- C7: for every agent in the registry and every input, profile and
environment draw, a returned response with status error has a toolCalls
list whose statuses are exactly the one-element list [error] — one tool
call, itself errored. -/
theorem c7_error_response_single_error_toolcall (id input : String)
    (profile : Option IntentProfile) (rnd : CycleRand) (resp : AgentResponse)
    (hresp : runAgent id input profile rnd = some resp)
    (herr : resp.status = .error) :
    resp.toolCalls.map (fun tc => tc.status) = [.error] := by
  unfold runAgent at hresp
  split_ifs at hresp
  · cases hresp
    exact recSignalAgent_error_shape input profile rnd.signal herr
  · cases hresp
    exact recTraceAgent_error_shape input profile rnd.trace herr
  · cases hresp
    exact recCheckAgent_error_shape input profile rnd.check herr
  · cases hresp
    exact recServerAgent_error_shape input profile rnd.server herr

/-- C7 witness: the monitoring agent with the error draw set returns an
error response with exactly one errored tool call. -/
theorem c7_witness :
    runAgent "recSignalAgent" "check feed" none { signal := { isError := true } }
      = some (recSignalAgent "check feed" none { isError := true }) ∧
    (recSignalAgent "check feed" none { isError := true }).status = .error ∧
    (recSignalAgent "check feed" none { isError := true }).toolCalls.map
      (fun tc => tc.status) = [.error] :=
  ⟨rfl, rfl,
   c7_error_response_single_error_toolcall ("recSignalAgent") ("check feed") none
     { signal := { isError := true } } _ rfl rfl⟩

/-- Recognizer for planning events. -/
def isPlanningEv : CycleEvent → Bool
  | .planning _ => true
  | _ => false

/-- Recognizer for synthesis events. -/
def isSynthesisEv : CycleEvent → Bool
  | .synthesis _ => true
  | _ => false

/-- Recognizer for completion events. -/
def isCompleteEv : CycleEvent → Bool
  | .complete => true
  | _ => false

/-- Recognizer for agent-complete events. -/
def isAgentCompleteEv : CycleEvent → Bool
  | .agentComplete _ => true
  | _ => false

/-- Display name carried by an agent-complete event. -/
def agentCompleteName : CycleEvent → Option String
  | .agentComplete n => some n
  | _ => none

theorem execLoop_countP_zero (reg : String → Option AgentResponse) (p : CycleEvent → Bool)
    (h1 : ∀ n a, p (.agentStart n a) = false) (h2 : ∀ n, p (.agentComplete n) = false) :
    ∀ (l : List String) (i : Nat), ((execLoop reg l i).2.2).countP p = 0 := by
  intro l
  induction l with
  | nil => intro i; simp [execLoop]
  | cons id rest ih =>
      intro i
      cases hreg : reg id <;>
        simp [execLoop, hreg, List.countP_cons, h1, h2, ih]

theorem execLoop_agentComplete_count (reg : String → Option AgentResponse) :
    ∀ (l : List String) (i : Nat),
      ((execLoop reg l i).2.2).countP isAgentCompleteEv =
        l.countP (fun id => (reg id).isSome) := by
  intro l
  induction l with
  | nil => intro i; simp [execLoop]
  | cons id rest ih =>
      intro i
      cases hreg : reg id <;>
        simp [execLoop, hreg, List.countP_cons, ih, isAgentCompleteEv]

theorem execLoop_names (reg : String → Option AgentResponse) :
    ∀ (l : List String) (i : Nat),
      ((execLoop reg l i).2.2).filterMap agentCompleteName =
        l.filterMap (fun id => (reg id).map (fun resp => resp.displayName)) := by
  intro l
  induction l with
  | nil => intro i; simp [execLoop]
  | cons id rest ih =>
      intro i
      cases hreg : reg id <;>
        simp [execLoop, hreg, ih, agentCompleteName]

theorem execLoop_agents (reg : String → Option AgentResponse) :
    ∀ (l : List String) (i : Nat), (execLoop reg l i).1 = l.filterMap reg := by
  intro l
  induction l with
  | nil => intro i; simp [execLoop]
  | cons id rest ih =>
      intro i
      cases hreg : reg id <;> simp [execLoop, hreg, ih]

theorem countP_some_none (reg : String → Option AgentResponse) (l : List String) :
    l.countP (fun id => (reg id).isSome) =
      l.length - l.countP (fun id => (reg id).isNone) := by
  induction l with
  | nil => simp
  | cons id rest ih =>
      have hle : rest.countP (fun id => (reg id).isNone) ≤ rest.length :=
        List.countP_le_length _
      cases hreg : reg id
      · simp [List.countP_cons, hreg, ih]
      · simp [List.countP_cons, hreg, ih]
        omega

/-- C6: when the control cycle runs (the model never throws), it emits
exactly one planning, one synthesis and one complete event, and exactly as
many agent-complete events as agentsToInvoke has entries resolving in the
registry (length minus the unknown ids, which are skipped); moreover the
agent-complete events carry the display names of the resolved agents in
agentsToInvoke order. -/
theorem c6_lifecycle_event_counts (input : String) (reg : String → Option AgentResponse)
    (now : Int) :
    ((runControlCycle input reg now).2).countP isPlanningEv = 1 ∧
    ((runControlCycle input reg now).2).countP isSynthesisEv = 1 ∧
    ((runControlCycle input reg now).2).countP isCompleteEv = 1 ∧
    ((runControlCycle input reg now).2).countP isAgentCompleteEv =
      (analyzeIntent input).agentsToInvoke.length -
        (analyzeIntent input).agentsToInvoke.countP (fun id => (reg id).isNone) ∧
    ((runControlCycle input reg now).2).filterMap agentCompleteName =
      (analyzeIntent input).agentsToInvoke.filterMap
        (fun id => (reg id).map (fun resp => resp.displayName)) := by
  refine ⟨?_, ?_, ?_, ?_, ?_⟩ <;>
    simp only [runControlCycle, List.countP_cons, List.countP_append,
      List.filterMap_cons, List.filterMap_append, isPlanningEv, isSynthesisEv,
      isCompleteEv, isAgentCompleteEv, agentCompleteName]
  · rw [execLoop_countP_zero reg isPlanningEv (by intro n a; rfl) (by intro n; rfl)]
    simp
  · rw [execLoop_countP_zero reg isSynthesisEv (by intro n a; rfl) (by intro n; rfl)]
    simp
  · rw [execLoop_countP_zero reg isCompleteEv (by intro n a; rfl) (by intro n; rfl)]
    simp
  · rw [execLoop_agentComplete_count reg, countP_some_none reg]
    simp
  · rw [execLoop_names reg]
    simp
theorem agents_cases (input : String) :
    (analyzeIntent input).agentsToInvoke ∈
      [["recServerAgent", "recTraceAgent"],
       ["recSignalAgent", "recCheckAgent"],
       ["recSignalAgent"],
       ["recSignalAgent", "recTraceAgent", "recCheckAgent"],
       ["recTraceAgent", "recCheckAgent"],
       ["recCheckAgent"],
       ["recSignalAgent", "recTraceAgent"]] := by
  rcases hfind : DOMAIN_INTENT_RULES.find?
      (fun rule => !(extractKeywords (jsToLower input) rule.keywords).isEmpty) with _ | rule
  · rcases hgen : INTENT_RULES.find?
        (fun rule => !(extractKeywords (jsToLower input) rule.keywords).isEmpty) with _ | grule
    · simp only [analyzeIntent, hfind, hgen]
      split_ifs <;> decide
    · have hmem := List.mem_of_find?_eq_some hgen
      simp only [analyzeIntent, hfind, hgen]
      fin_cases hmem <;> split_ifs <;> decide
  · have hmem := List.mem_of_find?_eq_some hfind
    simp only [analyzeIntent, hfind]
    fin_cases hmem <;> decide

theorem agents_sub (input : String) :
    ∀ id ∈ (analyzeIntent input).agentsToInvoke, id ∈ AGENT_IDS := by
  have h := agents_cases input
  simp only [List.mem_cons, List.not_mem_nil, or_false] at h
  rcases h with h | h | h | h | h | h | h <;> rw [h] <;> decide

theorem agents_nodup (input : String) :
    (analyzeIntent input).agentsToInvoke.Nodup := by
  have h := agents_cases input
  simp only [List.mem_cons, List.not_mem_nil, or_false] at h
  rcases h with h | h | h | h | h | h | h <;> rw [h] <;> decide

theorem recSignalAgent_findings_count (input : String) (p : Option IntentProfile)
    (r : SignalRand) (D : String) (hD : D ∈ DISPLAY_NAMES) :
    (agentFindings (recSignalAgent input p r)).countP
      (fun f => f.status == FindingStatus.error && f.label == D)
      = if (recSignalAgent input p r).status = .error ∧
           (recSignalAgent input p r).displayName = D then 1 else 0 := by
  unfold recSignalAgent
  by_cases he : r.isError = true <;> simp only [he, ite_true, ite_false, Bool.false_eq_true]
  · fin_cases hD <;> simp [agentFindings]
  · split
    · fin_cases hD <;> simp [agentFindings]
    · split <;> (fin_cases hD <;> simp [agentFindings])

theorem recTraceAgent_findings_count (input : String) (p : Option IntentProfile)
    (r : TraceRand) (D : String) (hD : D ∈ DISPLAY_NAMES) :
    (agentFindings (recTraceAgent input p r)).countP
      (fun f => f.status == FindingStatus.error && f.label == D)
      = if (recTraceAgent input p r).status = .error ∧
           (recTraceAgent input p r).displayName = D then 1 else 0 := by
  unfold recTraceAgent
  by_cases he : r.isError = true <;> simp only [he, ite_true, ite_false, Bool.false_eq_true]
  · fin_cases hD <;> simp [agentFindings]
  · split <;> (fin_cases hD <;> simp [agentFindings])

theorem recCheckAgent_findings_count (input : String) (p : Option IntentProfile)
    (r : CheckRand) (D : String) (hD : D ∈ DISPLAY_NAMES) :
    (agentFindings (recCheckAgent input p r)).countP
      (fun f => f.status == FindingStatus.error && f.label == D)
      = if (recCheckAgent input p r).status = .error ∧
           (recCheckAgent input p r).displayName = D then 1 else 0 := by
  unfold recCheckAgent
  by_cases he : r.isError = true <;> simp only [he, ite_true, ite_false, Bool.false_eq_true] <;>
    (fin_cases hD <;> simp [agentFindings])

theorem recServerAgent_findings_count (input : String) (p : Option IntentProfile)
    (r : ServerRand) (D : String) (hD : D ∈ DISPLAY_NAMES) :
    (agentFindings (recServerAgent input p r)).countP
      (fun f => f.status == FindingStatus.error && f.label == D)
      = if (recServerAgent input p r).status = .error ∧
           (recServerAgent input p r).displayName = D then 1 else 0 := by
  unfold recServerAgent
  by_cases he : r.isError = true <;> simp only [he, ite_true, ite_false, Bool.false_eq_true]
  · fin_cases hD <;> simp [agentFindings]
  · split <;> (fin_cases hD <;> simp [agentFindings])

theorem runAgent_fields (id : String) (hid : id ∈ AGENT_IDS) (input : String)
    (p : Option IntentProfile) (rnd : CycleRand) (r : AgentResponse)
    (hr : runAgent id input p rnd = some r) :
    r.agentId = id ∧ r.displayName = displayNameOf id := by
  fin_cases hid
  · rw [show runAgent "recSignalAgent" input p rnd
      = some (recSignalAgent input p rnd.signal) from rfl] at hr
    cases hr
    exact recSignalAgent_fields input p rnd.signal
  · rw [show runAgent "recTraceAgent" input p rnd
      = some (recTraceAgent input p rnd.trace) from rfl] at hr
    cases hr
    exact recTraceAgent_fields input p rnd.trace
  · rw [show runAgent "recCheckAgent" input p rnd
      = some (recCheckAgent input p rnd.check) from rfl] at hr
    cases hr
    exact recCheckAgent_fields input p rnd.check
  · rw [show runAgent "recServerAgent" input p rnd
      = some (recServerAgent input p rnd.server) from rfl] at hr
    cases hr
    exact recServerAgent_fields input p rnd.server

theorem runAgent_findings_count (id : String) (hid : id ∈ AGENT_IDS) (input : String)
    (p : Option IntentProfile) (rnd : CycleRand) (r : AgentResponse)
    (hr : runAgent id input p rnd = some r) (D : String) (hD : D ∈ DISPLAY_NAMES) :
    (agentFindings r).countP (fun f => f.status == FindingStatus.error && f.label == D)
      = if r.status = .error ∧ r.displayName = D then 1 else 0 := by
  fin_cases hid
  · rw [show runAgent "recSignalAgent" input p rnd
      = some (recSignalAgent input p rnd.signal) from rfl] at hr
    cases hr
    exact recSignalAgent_findings_count input p rnd.signal D hD
  · rw [show runAgent "recTraceAgent" input p rnd
      = some (recTraceAgent input p rnd.trace) from rfl] at hr
    cases hr
    exact recTraceAgent_findings_count input p rnd.trace D hD
  · rw [show runAgent "recCheckAgent" input p rnd
      = some (recCheckAgent input p rnd.check) from rfl] at hr
    cases hr
    exact recCheckAgent_findings_count input p rnd.check D hD
  · rw [show runAgent "recServerAgent" input p rnd
      = some (recServerAgent input p rnd.server) from rfl] at hr
    cases hr
    exact recServerAgent_findings_count input p rnd.server D hD

theorem runAgent_isSome (id : String) (hid : id ∈ AGENT_IDS) (input : String)
    (p : Option IntentProfile) (rnd : CycleRand) :
    (runAgent id input p rnd).isSome := by
  fin_cases hid <;> rfl

theorem displayNameOf_inj_on (x y : String) (hx : x ∈ AGENT_IDS) (hy : y ∈ AGENT_IDS)
    (hne : x ≠ y) : displayNameOf x ≠ displayNameOf y := by
  fin_cases hx <;> fin_cases hy <;> simp at hne ⊢ <;> decide

theorem flatMap_countP_zero (reg : String → Option AgentResponse)
    (p : ReportFinding → Bool) :
    ∀ l : List String,
      (∀ id ∈ l, ∀ r, reg id = some r → (agentFindings r).countP p = 0) →
      (((l.filterMap reg).flatMap agentFindings).countP p) = 0 := by
  intro l
  induction l with
  | nil => intro _; simp
  | cons id rest ih =>
      intro h
      cases hreg : reg id with
      | none =>
          simp only [List.filterMap_cons, hreg]
          exact ih (fun i hi r hr => h i (List.mem_cons_of_mem _ hi) r hr)
      | some resp =>
          simp only [List.filterMap_cons, hreg, List.flatMap_cons, List.countP_append]
          rw [h id (List.mem_cons_self _ _) resp hreg,
            ih (fun i hi r hr => h i (List.mem_cons_of_mem _ hi) r hr)]

theorem flatMap_countP_one (reg : String → Option AgentResponse)
    (p : ReportFinding → Bool) (a : String) :
    ∀ l : List String, l.Nodup → a ∈ l → (reg a).isSome →
      (∀ r, reg a = some r → (agentFindings r).countP p = 1) →
      (∀ id ∈ l, id ≠ a → ∀ r, reg id = some r → (agentFindings r).countP p = 0) →
      (((l.filterMap reg).flatMap agentFindings).countP p) = 1 := by
  intro l
  induction l with
  | nil => intro _ ha; exact absurd ha (List.not_mem_nil a)
  | cons id rest ih =>
      intro hnd ha hsome hone hzero
      by_cases hia : id = a
      · subst hia
        cases hreg : reg id with
        | none =>
            rw [hreg] at hsome
            simp at hsome
        | some resp =>
            simp only [List.filterMap_cons, hreg, List.flatMap_cons, List.countP_append]
            rw [hone resp hreg]
            rw [flatMap_countP_zero reg p rest (fun i hi r hr =>
              hzero i (List.mem_cons_of_mem _ hi)
                (fun hiq => ((List.nodup_cons.mp hnd).1 (hiq ▸ hi)).elim) r hr)]
      · have ha' : a ∈ rest := by
          rcases List.mem_cons.mp ha with h | h
          · exact absurd h.symm hia
          · exact h
        cases hreg : reg id with
        | none =>
            simp only [List.filterMap_cons, hreg]
            exact ih (List.nodup_cons.mp hnd).2 ha' hsome hone
              (fun i hi hia' r hr => hzero i (List.mem_cons_of_mem _ hi) hia' r hr)
        | some resp =>
            simp only [List.filterMap_cons, hreg, List.flatMap_cons, List.countP_append]
            rw [hzero id (List.mem_cons_self _ _) hia resp hreg,
              ih (List.nodup_cons.mp hnd).2 ha' hsome hone
                (fun i hi hia' r hr => hzero i (List.mem_cons_of_mem _ hi) hia' r hr)]

theorem baseFindings_countP_zero (profile : IntentProfile) (D : String)
    (hD : D ∈ DISPLAY_NAMES) :
    (baseFindings profile).countP
      (fun f => f.status == FindingStatus.error && f.label == D) = 0 := by
  fin_cases hD <;> unfold baseFindings <;> split_ifs <;>
    simp [List.countP_append, List.countP_cons]

theorem length_filterMap_all_some {α β : Type} (f : α → Option β) :
    ∀ l : List α, (∀ x ∈ l, (f x).isSome) → (l.filterMap f).length = l.length := by
  intro l
  induction l with
  | nil => intro _; rfl
  | cons x xs ih =>
      intro h
      cases hf : f x with
      | none =>
          have := h x (List.mem_cons_self _ _)
          rw [hf] at this
          simp at this
      | some b =>
          simp only [List.filterMap_cons, hf, List.length_cons]
          rw [ih (fun y hy => h y (List.mem_cons_of_mem _ hy))]

theorem cycle_agents_eq (input : String) (rnd : CycleRand) (now : Int) :
    (runCycleWithAgents input rnd now).1.agents =
      (analyzeIntent input).agentsToInvoke.filterMap
        (fun id => runAgent id input (some (analyzeIntent input)) rnd) := by
  simp only [runCycleWithAgents, runControlCycle]
  exact execLoop_agents _ _ _

theorem cycle_keyFindings_eq (input : String) (rnd : CycleRand) (now : Int) :
    (runCycleWithAgents input rnd now).1.reportData.keyFindings =
      baseFindings (analyzeIntent input) ++
        ((analyzeIntent input).agentsToInvoke.filterMap
          (fun id => runAgent id input (some (analyzeIntent input)) rnd)).flatMap
          agentFindings := by
  simp only [runCycleWithAgents, runControlCycle, buildReportData]
  rw [execLoop_agents]

/-- C5: in every run of the control cycle in which some planned agent
resolves with status error, the cycle still completes: the error response
is included in the returned agents, the loop continues through all planned
agents (the response count equals the plan length), and exactly one finding
with status error whose label is that agent's display name appears in
reportData.keyFindings. -/
theorem c5_agent_error_not_fatal (input : String) (rnd : CycleRand) (now : Int)
    (a : String) (ha : a ∈ (analyzeIntent input).agentsToInvoke)
    (resp : AgentResponse)
    (hresp : runAgent a input (some (analyzeIntent input)) rnd = some resp)
    (herr : resp.status = .error) :
    resp ∈ (runCycleWithAgents input rnd now).1.agents ∧
    (runCycleWithAgents input rnd now).1.agents.length =
      (analyzeIntent input).agentsToInvoke.length ∧
    ((runCycleWithAgents input rnd now).1.reportData.keyFindings.countP
      (fun f => f.status == FindingStatus.error && f.label == resp.displayName)) = 1 := by
  have hid : a ∈ AGENT_IDS := agents_sub input a ha
  have hD : resp.displayName = displayNameOf a :=
    (runAgent_fields a hid input (some (analyzeIntent input)) rnd resp hresp).2
  have hDmem : displayNameOf a ∈ DISPLAY_NAMES := by fin_cases hid <;> decide
  refine ⟨?_, ?_, ?_⟩
  · rw [cycle_agents_eq]
    exact List.mem_filterMap.mpr ⟨a, ha, hresp⟩
  · rw [cycle_agents_eq]
    exact length_filterMap_all_some _ _ (fun id hidm =>
      runAgent_isSome id (agents_sub input id hidm) input (some (analyzeIntent input)) rnd)
  · have hone : ∀ r, runAgent a input (some (analyzeIntent input)) rnd = some r →
        (agentFindings r).countP
          (fun f => f.status == FindingStatus.error && f.label == displayNameOf a) = 1 := by
      intro r hr
      have hra : r = resp := by
        rw [hr] at hresp
        exact Option.some.inj hresp
      subst hra
      rw [runAgent_findings_count a hid input (some (analyzeIntent input)) rnd r hr
        (displayNameOf a) hDmem]
      rw [if_pos ⟨herr, hD⟩]
    have hzero : ∀ id ∈ (analyzeIntent input).agentsToInvoke, id ≠ a → ∀ r,
        runAgent id input (some (analyzeIntent input)) rnd = some r →
        (agentFindings r).countP
          (fun f => f.status == FindingStatus.error && f.label == displayNameOf a) = 0 := by
      intro id hidm hne r hr
      have hid2 := agents_sub input id hidm
      rw [runAgent_findings_count id hid2 input (some (analyzeIntent input)) rnd r hr
        (displayNameOf a) hDmem]
      rw [if_neg]
      rintro ⟨-, h2⟩
      exact displayNameOf_inj_on id a hid2 hid hne
        (((runAgent_fields id hid2 input (some (analyzeIntent input)) rnd r hr).2).symm.trans h2)
    rw [cycle_keyFindings_eq, List.countP_append, hD,
      baseFindings_countP_zero (analyzeIntent input) (displayNameOf a) hDmem,
      flatMap_countP_one _ _ a (analyzeIntent input).agentsToInvoke (agents_nodup input) ha
        (by rw [hresp]; rfl) hone hzero]

/-- C5 witness: on the input "audit" (compliance check, single agent) with
the validation agent drawing its error branch, the cycle completes with the
error response recorded and exactly one error finding labeled with its
display name. -/
theorem c5_witness :
    "recCheckAgent" ∈ (analyzeIntent "audit").agentsToInvoke ∧
    runAgent "recCheckAgent" "audit" (some (analyzeIntent "audit"))
        { check := { isError := true } } =
      some (recCheckAgent "audit" (some (analyzeIntent "audit")) { isError := true }) ∧
    (recCheckAgent "audit" (some (analyzeIntent "audit")) { isError := true }).status
      = .error ∧
    (recCheckAgent "audit" (some (analyzeIntent "audit")) { isError := true }) ∈
      (runCycleWithAgents "audit" { check := { isError := true } } 0).1.agents ∧
    (runCycleWithAgents "audit" { check := { isError := true } } 0).1.agents.length =
      (analyzeIntent "audit").agentsToInvoke.length ∧
    ((runCycleWithAgents "audit" { check := { isError := true } } 0).1.reportData.keyFindings.countP
      (fun f => f.status == FindingStatus.error &&
        f.label == (recCheckAgent "audit" (some (analyzeIntent "audit"))
          { isError := true }).displayName)) = 1 := by
  refine ⟨by decide, rfl, rfl, ?_⟩
  exact c5_agent_error_not_fatal ("audit") { check := { isError := true } } 0
    ("recCheckAgent") (by decide) _ rfl rfl
/-- The escalation action pushed by `buildReportData` for a high-MTP
payload: it names exactly the accounts whose mtp exceeds 180 (not the scan
threshold of 150 used by the monitoring agent). -/
def escalateAction (accts : List MTPAccount) : String :=
  "Escalate high-MTP accounts for review: " ++
    joinSep (", ") ((accts.filter (fun a => a.mtp > 180)).map (fun a => a.name)) ++ "."

theorem head_all_append {P : String → Prop} {l1 l2 : List String}
    (h1 : ∀ s ∈ l1, P s) (h2 : ∀ s ∈ l2, P s) : ∀ s ∈ l1 ++ l2, P s := by
  intro s hs
  rcases List.mem_append.mp hs with h | h
  · exact h1 s h
  · exact h2 s h

theorem head_all_ite {P : String → Prop} {c : Prop} [Decidable c] {l : List String}
    (h : ∀ s ∈ l, P s) : ∀ s ∈ (if c then l else []), P s := by
  split
  · exact h
  · intro s hs
    exact absurd hs (List.not_mem_nil s)

theorem head_all_ite_false {P : String → Prop} {c : Prop} [Decidable c] {l : List String}
    (hc : ¬c) : ∀ s ∈ (if c then l else []), P s := by
  rw [if_neg hc]
  intro s hs
  exact absurd hs (List.not_mem_nil s)

theorem head_all_nil {P : String → Prop} : ∀ s ∈ ([] : List String), P s := by
  intro s hs
  exact absurd hs (List.not_mem_nil s)

theorem not_mem_headE {l : List String}
    (hall : ∀ s ∈ l, s.data.head? ≠ some ('E')) {x : String}
    (hx : x.data.head? = some ('E')) : x ∉ l :=
  fun hm => hall x hm hx

theorem head_all_server_warning (w : String) :
    ∀ s ∈ ["Server resource alerts require attention: " ++ w ++ "."],
      s.data.head? ≠ some ('E') := by
  intro s hs
  rw [List.mem_singleton] at hs
  subst hs
  intro hh
  have h2 : (some ('S') : Option Char) = some ('E') := hh
  exact absurd (Option.some.inj h2) (by decide)

theorem mem_final_actions {x fallback : String} {l : List String} (hx : x ∈ l) :
    x ∈ (if l.length = 0 then [fallback] else l) := by
  have hne : ¬(l.length = 0) := by
    intro h
    rw [List.length_eq_zero] at h
    subst h
    exact absurd hx (List.not_mem_nil x)
  rw [if_neg hne]
  exact hx

theorem not_mem_final_actions {x fallback : String} {l : List String}
    (hl : x ∉ l) (hf : x ≠ fallback) : x ∉ (if l.length = 0 then [fallback] else l) := by
  split
  · intro hm
    rw [List.mem_singleton] at hm
    exact hf hm
  · exact hl

/-- C9: when the first successful Monitoring response carries a high_mtp
payload with accounts, the escalation action is in the recommended actions
iff some account exceeds mtp 180, and it names exactly the over-180
accounts. -/
theorem c9_escalation_exactly_over_180 (responses : List AgentResponse)
    (profile : IntentProfile) (fs : String) (now : Int) (r : AgentResponse)
    (accts : List MTPAccount)
    (hfind : responses.find?
      (fun x => x.agentId == "recSignalAgent" && x.status == ExecutionStatus.success)
        = some r)
    (hdom : r.payload.domain = some ("high_mtp"))
    (hacc : r.payload.accounts = some accts) :
    (escalateAction accts ∈ (buildReportData responses profile fs now).recommendedActions
      ↔ ∃ a ∈ accts, a.mtp > 180) := by
  have hdne : ((some ("high_mtp") : Option String) = some ("delayed_recon")) = False := by
    simp
  have hdeq : ((some ("high_mtp") : Option String) = some ("high_mtp")) = True := by
    simp
  rcases hsrv : responses.find?
      (fun x => x.agentId == "recServerAgent" && x.status == ExecutionStatus.success)
      with _ | s <;>
    by_cases hb : ∃ a ∈ accts, a.mtp > 180 <;>
    simp only [buildReportData, escalateAction, hfind, hdom, hacc, hsrv, Option.getD_some,
      hdne, hdeq, if_true, if_false, List.nil_append]
  · -- no server response, some account over 180
    have hposf : accts.filter (fun a => a.mtp > 180) ≠ [] := by
      obtain ⟨a0, ha0, hgt⟩ := hb
      exact List.ne_nil_of_mem (List.mem_filter.mpr ⟨ha0, by simpa using hgt⟩)
    have hpos : ((accts.filter (fun a => a.mtp > 180)).map (fun a => a.name)).length > 0 := by
      simpa [List.length_map] using List.length_pos.mpr hposf
    simp only [hb, iff_true]
    refine mem_final_actions ?_
    rw [if_pos hpos]
    simp [List.mem_append]
  · -- no server response, no account over 180
    have hnil : accts.filter (fun a => a.mtp > 180) = [] := by
      rw [List.filter_eq_nil_iff]
      intro a ha hgt
      exact hb ⟨a, ha, by simpa using hgt⟩
    have hlen0 : ¬(((accts.filter (fun a => a.mtp > 180)).map (fun a => a.name)).length > 0) := by
      rw [hnil]
      simp
    simp only [hb, iff_false]
    refine not_mem_final_actions ?_ ?_
    · refine not_mem_headE ?_ rfl
      exact head_all_append
        (head_all_append
          (head_all_append
            (head_all_append
              (head_all_append (head_all_ite (by decide)) (head_all_ite (by decide)))
              (head_all_ite (by decide)))
            (head_all_ite (by decide)))
          (head_all_ite_false hlen0))
        head_all_nil
    · intro hmem
      have hE := congrArg (fun t : String => t.data.head?) hmem
      have h2 : (some ('E') : Option Char) = some ('N') := hE
      exact absurd (Option.some.inj h2) (by decide)
  · -- server response present, some account over 180
    have hposf : accts.filter (fun a => a.mtp > 180) ≠ [] := by
      obtain ⟨a0, ha0, hgt⟩ := hb
      exact List.ne_nil_of_mem (List.mem_filter.mpr ⟨ha0, by simpa using hgt⟩)
    have hpos : ((accts.filter (fun a => a.mtp > 180)).map (fun a => a.name)).length > 0 := by
      simpa [List.length_map] using List.length_pos.mpr hposf
    simp only [hb, iff_true]
    refine mem_final_actions ?_
    rw [if_pos hpos]
    simp [List.mem_append]
  · -- server response present, no account over 180
    have hnil : accts.filter (fun a => a.mtp > 180) = [] := by
      rw [List.filter_eq_nil_iff]
      intro a ha hgt
      exact hb ⟨a, ha, by simpa using hgt⟩
    have hlen0 : ¬(((accts.filter (fun a => a.mtp > 180)).map (fun a => a.name)).length > 0) := by
      rw [hnil]
      simp
    simp only [hb, iff_false]
    refine not_mem_final_actions ?_ ?_
    · refine not_mem_headE ?_ rfl
      exact head_all_append
        (head_all_append
          (head_all_append
            (head_all_append
              (head_all_append (head_all_ite (by decide)) (head_all_ite (by decide)))
              (head_all_ite (by decide)))
            (head_all_ite (by decide)))
          (head_all_ite_false hlen0))
        (head_all_ite (head_all_append
          (head_all_ite (head_all_server_warning _)) (by decide)))
    · intro hmem
      have hE := congrArg (fun t : String => t.data.head?) hmem
      have h2 : (some ('E') : Option Char) = some ('N') := hE
      exact absurd (Option.some.inj h2) (by decide)


/-- C9 witness: with the SNPB account table (mtp 184, 162, 201 over a scan
threshold of 150), the escalation action is present and names exactly the
two accounts over 180 — the 162 account is reported by the scan but not
named. -/
theorem c9_witness :
    ([{ agentId := "recSignalAgent", displayName := "Monitoring Agent",
        status := ExecutionStatus.success, toolCalls := [], summary := "",
        payload := { domain := some ("high_mtp"),
                     accounts := some [{ name := "snpb.fx.settlement", mtp := 184 },
                                       { name := "snpb.liquidity", mtp := 162 },
                                       { name := "snpb.derivatives", mtp := 201 }],
                     threshold := some 150 } } ] : List AgentResponse).find?
      (fun x => x.agentId == "recSignalAgent" && x.status == ExecutionStatus.success) =
      some ({ agentId := "recSignalAgent", displayName := "Monitoring Agent",
              status := ExecutionStatus.success, toolCalls := [], summary := "",
              payload := { domain := some ("high_mtp"),
                           accounts := some [{ name := "snpb.fx.settlement", mtp := 184 },
                                             { name := "snpb.liquidity", mtp := 162 },
                                             { name := "snpb.derivatives", mtp := 201 }],
                           threshold := some 150 } } : AgentResponse) ∧
    (escalateAction [{ name := "snpb.fx.settlement", mtp := 184 },
                     { name := "snpb.liquidity", mtp := 162 },
                     { name := "snpb.derivatives", mtp := 201 }] ∈
      (buildReportData
        [{ agentId := "recSignalAgent", displayName := "Monitoring Agent",
           status := ExecutionStatus.success, toolCalls := [], summary := "",
           payload := { domain := some ("high_mtp"),
                        accounts := some [{ name := "snpb.fx.settlement", mtp := 184 },
                                          { name := "snpb.liquidity", mtp := 162 },
                                          { name := "snpb.derivatives", mtp := 201 }],
                        threshold := some 150 } }]
        { type := IntentType.high_mtp_query, severity := SeverityLevel.medium,
          agentsToInvoke := ["recSignalAgent", "recCheckAgent"], primaryKeywords := [],
          domain := "Reconciliation",
          extractedContext := some { useCase := UseCase.high_mtp } }
        ("") 0).recommendedActions
      ↔ ∃ a ∈ [{ name := "snpb.fx.settlement", mtp := 184 },
               { name := "snpb.liquidity", mtp := 162 },
               { name := "snpb.derivatives", mtp := 201 }], MTPAccount.mtp a > 180) :=
  ⟨rfl,
   c9_escalation_exactly_over_180 _ _ ("") 0 _ _ rfl rfl rfl⟩
theorem buildReportData_domainSection (rs : List AgentResponse) (p : IntentProfile)
    (fs : String) (n : Int) :
    (buildReportData rs p fs n).domainSection = buildDomainSection rs p := rfl

theorem recSignalAgent_generic_of_no_instance (input : String) (p : IntentProfile)
    (r : SignalRand) (hne : r.isError = false) (ctx : ExtractedContext)
    (hctx : p.extractedContext = some ctx) (hiid : ctx.instanceId = none)
    (hres : resolveInstance input = none)
    (huse : ctx.useCase = UseCase.delayed_recon ∨ ctx.useCase = UseCase.high_mtp) :
    (recSignalAgent input (some p) r).payload.domain = none ∧
    (recSignalAgent input (some p) r).status = .success := by
  unfold recSignalAgent
  have hctxOf : ctxOf (some p) = some ctx := by simp [ctxOf, hctx]
  have hinst : instFromCtx ctx input = none := by simp [instFromCtx, hiid, hres]
  simp only [hne, Bool.false_eq_true, ite_false, if_false, hctxOf]
  rcases huse with h | h <;> simp [h, hinst]

/-- C10: for every input classified as a delayed_recon or high_mtp use case
whose text resolves to no known instance, a non-erroring Monitoring agent
falls back to its generic anomaly output whose payload carries no domain
marker, and consequently the synthesized ReportData has no domainSection
(buildDomainSection returns none). -/
theorem c10_no_instance_no_domain_section (input : String) (rnd : CycleRand) (now : Int)
    (ctx : ExtractedContext)
    (hres : resolveInstance input = none)
    (hctx : (analyzeIntent input).extractedContext = some ctx)
    (huse : ctx.useCase = UseCase.delayed_recon ∨ ctx.useCase = UseCase.high_mtp)
    (hne : rnd.signal.isError = false) :
    (recSignalAgent input (some (analyzeIntent input)) rnd.signal).payload.domain = none ∧
    (runCycleWithAgents input rnd now).1.reportData.domainSection = none := by
  rcases hfind : DOMAIN_INTENT_RULES.find?
      (fun rule => !(extractKeywords (jsToLower input) rule.keywords).isEmpty) with _ | rule
  · simp only [analyzeIntent, hfind] at hctx
    exact absurd hctx (by simp)
  · have hmem := List.mem_of_find?_eq_some hfind
    fin_cases hmem
    · -- server_diagnosis rule: contradicts huse
      exfalso
      rcases hsrv2 : resolveServer input with _ | srv <;>
        simp only [analyzeIntent, hfind, hsrv2] at hctx <;>
        · have h := Option.some.inj hctx
          rcases huse with h1 | h1 <;> rw [← h] at h1 <;> simp at h1
    · -- high_mtp rule
      simp [analyzeIntent, hfind, hres] at hctx
      subst hctx
      have hctxP : (analyzeIntent input).extractedContext =
          some { useCase := UseCase.high_mtp, serverId := none, instanceId := none } := by
        simp [analyzeIntent, hfind, hres]
      have hgen := recSignalAgent_generic_of_no_instance input (analyzeIntent input)
        rnd.signal hne _ hctxP rfl hres (Or.inr rfl)
      refine ⟨hgen.1, ?_⟩
      have hagents : (analyzeIntent input).agentsToInvoke =
          ["recSignalAgent", "recCheckAgent"] := by
        simp [analyzeIntent, hfind]
      have hsigid := (recSignalAgent_fields input (some (analyzeIntent input)) rnd.signal).1
      have hreg1 : runAgent "recSignalAgent" input (some (analyzeIntent input)) rnd =
          some (recSignalAgent input (some (analyzeIntent input)) rnd.signal) := rfl
      have hreg2 : runAgent "recCheckAgent" input (some (analyzeIntent input)) rnd =
          some (recCheckAgent input (some (analyzeIntent input)) rnd.check) := rfl
      simp only [runCycleWithAgents, runControlCycle, buildReportData_domainSection]
      rw [execLoop_agents, hagents]
      simp only [List.filterMap_cons, List.filterMap_nil, hreg1, hreg2]
      simp [buildDomainSection, hctxP, hsigid, hgen.2, hgen.1]
    · -- delayed_recon rule
      simp [analyzeIntent, hfind, hres] at hctx
      subst hctx
      have hctxP : (analyzeIntent input).extractedContext =
          some { useCase := UseCase.delayed_recon, serverId := none, instanceId := none } := by
        simp [analyzeIntent, hfind, hres]
      have hgen := recSignalAgent_generic_of_no_instance input (analyzeIntent input)
        rnd.signal hne _ hctxP rfl hres (Or.inl rfl)
      refine ⟨hgen.1, ?_⟩
      have hagents : (analyzeIntent input).agentsToInvoke = ["recSignalAgent"] := by
        simp [analyzeIntent, hfind]
      have hsigid := (recSignalAgent_fields input (some (analyzeIntent input)) rnd.signal).1
      have hreg1 : runAgent "recSignalAgent" input (some (analyzeIntent input)) rnd =
          some (recSignalAgent input (some (analyzeIntent input)) rnd.signal) := rfl
      simp only [runCycleWithAgents, runControlCycle, buildReportData_domainSection]
      rw [execLoop_agents, hagents]
      simp only [List.filterMap_cons, List.filterMap_nil, hreg1]
      simp [buildDomainSection, hctxP, hsigid, hgen.2, hgen.1]

/-- C10 witness: the input "list delayed jobs" triggers the delayed_recon
use case, names no instance, and yields a report without a domain
section. -/
theorem c10_witness :
    resolveInstance "list delayed jobs" = none ∧
    (analyzeIntent "list delayed jobs").extractedContext =
      some { useCase := UseCase.delayed_recon, serverId := none, instanceId := none } ∧
    (recSignalAgent "list delayed jobs" (some (analyzeIntent "list delayed jobs"))
      ({} : CycleRand).signal).payload.domain = none ∧
    (runCycleWithAgents "list delayed jobs" {} 0).1.reportData.domainSection = none := by
  refine ⟨by decide, by decide, ?_⟩
  exact c10_no_instance_no_domain_section ("list delayed jobs") {} 0
    { useCase := UseCase.delayed_recon, serverId := none, instanceId := none }
    (by decide) (by decide) (Or.inl rfl) rfl
